import Mathlib

/-!
# Verification of the bithumb trading bot core

A shallow embedding of the trading bot's core services:

* `app/services/strategy.py` — the signal library (moving-average cross, RSI,
  Bollinger, MACD, stochastic, composite strategies),
* `app/services/trading_engine.py` — the order execution engine,
* `app/services/scheduler.py` — the periodic execution control loop,
* `app/services/backtesting.py` — the historical simulation engine.

Python floats are modeled as exact rationals (`ℚ`).  Pandas series values
that can be NaN (incomplete rolling windows, float comparisons involving NaN)
are modeled as `Option ℚ`, where `none` stands for NaN and every comparison
against `none` is `false`, exactly like IEEE comparisons against NaN.
Exceptions that the Python code catches (out-of-range `iloc` access,
invalid rolling windows) are modeled by the enclosing computation returning
`none`, matching the `except: return None` handlers in the source.
The square root used by the Bollinger band computation is irrational in
general, so the embedding is parametrized by an arbitrary square-root
function `sq : ℚ → ℚ`; every theorem below holds for every choice of `sq`.
-/

namespace Bithumb

/- The core rational operations are `@[irreducible]` in Lean core, which
blocks `decide`-style evaluation of the embedding on concrete inputs; they
are perfectly sound to reduce (the kernel ignores reducibility), so they are
made semireducible for this file. -/
set_option allowUnsafeReducibility true

attribute [local semireducible] Rat.add Rat.mul Rat.sub Rat.div Rat.neg Rat.inv

/-- A single OHLCV candle; only the fields the strategies read are kept
(`open`/`volume` are never used by the signal code). -/
structure Candle where
  high : ℚ
  low : ℚ
  close : ℚ
deriving DecidableEq, Repr

/-- A pandas series value: `some x` for an ordinary float, `none` for NaN. -/
abbrev SVal := Option ℚ

/-- Float `<=` where either side may be NaN: any comparison with NaN is false. -/
def optLe : SVal → SVal → Bool
  | some a, some b => decide (a ≤ b)
  | _, _ => false

/-- Float `<` with NaN semantics. -/
def optLt : SVal → SVal → Bool
  | some a, some b => decide (a < b)
  | _, _ => false

/-- Float `>=` with NaN semantics. -/
def optGe : SVal → SVal → Bool
  | some a, some b => decide (b ≤ a)
  | _, _ => false

/-- Float `>` with NaN semantics. -/
def optGt : SVal → SVal → Bool
  | some a, some b => decide (b < a)
  | _, _ => false

/-- NaN-propagating subtraction of series values. -/
def optSub : SVal → SVal → SVal
  | some a, some b => some (a - b)
  | _, _ => none

/-- NaN-propagating addition of series values. -/
def optAdd : SVal → SVal → SVal
  | some a, some b => some (a + b)
  | _, _ => none

/-- `series.iloc[-1]`: the last element, or an `IndexError` (outer `none`)
on an empty series. -/
def iloc1 {α : Type} (xs : List α) : Option α := xs.getLast?

/-- `series.iloc[-2]`: the second-to-last element, or an `IndexError`
(outer `none`) when fewer than two elements exist. -/
def iloc2 {α : Type} (xs : List α) : Option α :=
  if 2 ≤ xs.length then xs.get? (xs.length - 2) else none

/-- Mean of a window of series values; NaN if the window contains NaN. -/
def windowMean (xs : List SVal) : SVal :=
  if xs.any (·.isNone) then none
  else some ((xs.filterMap id).sum / (xs.length : ℚ))

/-- The window of the last `w` positions ending at index `i` (inclusive). -/
def windowAt (w i : ℕ) (s : List SVal) : List SVal :=
  (s.take (i + 1)).drop (i + 1 - w)

/-- `series.rolling(window=w).mean()`: NaN until `w` observations exist
(pandas defaults `min_periods` to the window size).  A window of `0` makes
pandas raise, which the strategy code catches; every position is modeled as
NaN so that the callers' `iloc` reads stay defined. -/
def rollingMean (w : ℕ) (s : List SVal) : List SVal :=
  (List.range s.length).map fun i =>
    if w = 0 ∨ i + 1 < w then none else windowMean (windowAt w i s)

/-- Sample standard deviation of a window (pandas `ddof=1`), expressed through
the ambient square-root function; NaN when fewer than two observations exist
or the window contains NaN. -/
def windowStd (sq : ℚ → ℚ) (xs : List SVal) : SVal :=
  if xs.any (·.isNone) ∨ xs.length < 2 then none
  else
    let vals := xs.filterMap id
    let μ := vals.sum / (vals.length : ℚ)
    some (sq ((vals.map fun x => (x - μ) ^ 2).sum / ((vals.length : ℚ) - 1)))

/-- `series.rolling(window=w).std()`. -/
def rollingStd (sq : ℚ → ℚ) (w : ℕ) (s : List SVal) : List SVal :=
  (List.range s.length).map fun i =>
    if w = 0 ∨ i + 1 < w then none else windowStd sq (windowAt w i s)

/-- Minimum of a window; NaN on NaN or an incomplete window. -/
def windowMin (xs : List SVal) : SVal :=
  if xs.any (·.isNone) then none
  else
    match xs.filterMap id with
    | [] => none
    | v :: vs => some (vs.foldl min v)

/-- Maximum of a window; NaN on NaN or an incomplete window. -/
def windowMax (xs : List SVal) : SVal :=
  if xs.any (·.isNone) then none
  else
    match xs.filterMap id with
    | [] => none
    | v :: vs => some (vs.foldl max v)

/-- `series.rolling(window=w).min()`. -/
def rollingMin (w : ℕ) (s : List SVal) : List SVal :=
  (List.range s.length).map fun i =>
    if w = 0 ∨ i + 1 < w then none else windowMin (windowAt w i s)

/-- `series.rolling(window=w).max()`. -/
def rollingMax (w : ℕ) (s : List SVal) : List SVal :=
  (List.range s.length).map fun i =>
    if w = 0 ∨ i + 1 < w then none else windowMax (windowAt w i s)

/-- `series.diff()`: first element NaN, then successive differences. -/
def seriesDiff (s : List SVal) : List SVal :=
  (List.range s.length).map fun i =>
    if i = 0 then none
    else
      match s.get? i, s.get? (i - 1) with
      | some a, some b => optSub a b
      | _, _ => none

/-- Recursion core of `ewm(span=..., adjust=False).mean()`:
`y_i = a * x_i + (1 - a) * y_(i-1)`. -/
def ewmGo (a prev : ℚ) : List ℚ → List ℚ
  | [] => []
  | x :: xs =>
    let y := a * x + (1 - a) * prev
    y :: ewmGo a y xs

/-- `series.ewm(span=s, adjust=False).mean()` with smoothing `a = 2/(s+1)`,
seeded with the first observation.  Callers guard `span ≥ 1` (pandas raises
otherwise). -/
def ewmMean (span : ℕ) : List ℚ → List ℚ
  | [] => []
  | x :: xs => x :: ewmGo (2 / ((span : ℚ) + 1)) x xs

/-- Element-wise difference of two fully-defined equal-length series. -/
def zipSub (xs ys : List ℚ) : List ℚ := List.zipWith (· - ·) xs ys

/-! ## Signal library (`app/services/strategy.py`)

Each strategy receives the OHLCV frame that `self.api.get_ohlcv(coin)` would
return: `none` when the gateway call failed, `some candles` otherwise. -/

/-- The dictionary returned by `MovingAverageStrategy._get_moving_averages`. -/
structure MAValues where
  shortMa : SVal
  longMa : SVal
  prevShortMa : SVal
  prevLongMa : SVal
deriving DecidableEq, Repr

/-- `MovingAverageStrategy._get_moving_averages`: fetch OHLCV, require at
least `long_period` rows, compute short/long rolling means and their previous
values (`iloc[-1]`, `iloc[-2]`). -/
def MovingAverageStrategy.getMovingAverages (shortPeriod longPeriod : ℕ)
    (df : Option (List Candle)) : Option MAValues :=
  match df with
  | none => none
  | some candles =>
    if candles.length < longPeriod then none
    else
      let closes : List SVal := candles.map fun c => some c.close
      let shortSeries := rollingMean shortPeriod closes
      let longSeries := rollingMean longPeriod closes
      match iloc1 shortSeries, iloc1 longSeries, iloc2 shortSeries, iloc2 longSeries with
      | some sm, some lm, some psm, some plm =>
        some { shortMa := sm, longMa := lm, prevShortMa := psm, prevLongMa := plm }
      | _, _, _, _ => none

/-- `MovingAverageStrategy.should_buy`: golden cross,
`prev_short_ma <= prev_long_ma and short_ma > long_ma`. -/
def MovingAverageStrategy.shouldBuy (shortPeriod longPeriod : ℕ)
    (df : Option (List Candle)) : Bool :=
  match MovingAverageStrategy.getMovingAverages shortPeriod longPeriod df with
  | none => false
  | some mas => optLe mas.prevShortMa mas.prevLongMa && optGt mas.shortMa mas.longMa

/-- `MovingAverageStrategy.should_sell`: death cross,
`prev_short_ma >= prev_long_ma and short_ma < long_ma`. -/
def MovingAverageStrategy.shouldSell (shortPeriod longPeriod : ℕ)
    (df : Option (List Candle)) : Bool :=
  match MovingAverageStrategy.getMovingAverages shortPeriod longPeriod df with
  | none => false
  | some mas => optGe mas.prevShortMa mas.prevLongMa && optLt mas.shortMa mas.longMa

/-- `delta.where(delta > 0, 0)`: a NaN delta (the first row) fails the
condition and is replaced by 0, so the result is always defined. -/
def RSIStrategy.gains (closes : List ℚ) : List SVal :=
  (seriesDiff (closes.map some)).map fun d =>
    match d with
    | some v => if 0 < v then some v else some 0
    | none => some 0

/-- `-delta.where(delta < 0, 0)`. -/
def RSIStrategy.losses (closes : List ℚ) : List SVal :=
  (seriesDiff (closes.map some)).map fun d =>
    match d with
    | some v => if v < 0 then some (-v) else some 0
    | none => some 0

/-- `avg_gains.iloc[-1]` of `RSIStrategy._calculate_rsi` (outer `none` =
`IndexError`, inner `none` = NaN). -/
def RSIStrategy.avgGain (period : ℕ) (closes : List ℚ) : Option SVal :=
  iloc1 (rollingMean period (RSIStrategy.gains closes))

/-- `avg_losses.iloc[-1]` of `RSIStrategy._calculate_rsi`. -/
def RSIStrategy.avgLoss (period : ℕ) (closes : List ℚ) : Option SVal :=
  iloc1 (rollingMean period (RSIStrategy.losses closes))

/-- The last value of `rsi = 100 - (100 / (1 + avg_gains / avg_losses))` in
IEEE float arithmetic: a zero average loss with a nonzero average gain gives
`rs = ±inf` and hence `rsi = 100`; `0/0` gives NaN, which propagates. -/
def RSIStrategy.rsiFromAvg : SVal → SVal → SVal
  | some g, some l =>
    if l = 0 then (if g = 0 then none else some 100)
    else some (100 - 100 / (1 + g / l))
  | _, _ => none

/-- `RSIStrategy._calculate_rsi`: `None` (outer `none`) when the frame is
missing, has fewer than `period + 1` rows, or rolling over a window of `0`
raises; the inner value is the possibly-NaN float `rsi.iloc[-1]`. -/
def RSIStrategy.calculateRsi (period : ℕ) (df : Option (List Candle)) : Option SVal :=
  match df with
  | none => none
  | some candles =>
    if candles.length < period + 1 then none
    else if period = 0 then none
    else
      let closes := candles.map (·.close)
      match RSIStrategy.avgGain period closes, RSIStrategy.avgLoss period closes with
      | some g, some l => some (RSIStrategy.rsiFromAvg g l)
      | _, _ => none

/-- `RSIStrategy.should_buy`: `rsi < oversold` (false on `None` and on NaN). -/
def RSIStrategy.shouldBuy (period : ℕ) (oversold overbought : ℚ)
    (df : Option (List Candle)) : Bool :=
  match RSIStrategy.calculateRsi period df with
  | none => false
  | some r => optLt r (some oversold)

/-- `RSIStrategy.should_sell`: `rsi > overbought`. -/
def RSIStrategy.shouldSell (period : ℕ) (oversold overbought : ℚ)
    (df : Option (List Candle)) : Bool :=
  match RSIStrategy.calculateRsi period df with
  | none => false
  | some r => optGt r (some overbought)

/-- The dictionary returned by
`BollingerBandStrategy._calculate_bollinger_bands`. -/
structure BollingerValues where
  currentPrice : ℚ
  prevPrice : ℚ
  upperBand : SVal
  middleBand : SVal
  lowerBand : SVal
  prevUpperBand : SVal
  prevMiddleBand : SVal
  prevLowerBand : SVal

/-- `BollingerBandStrategy._calculate_bollinger_bands`: requires at least
`period + 1` rows; middle band is the rolling mean, bands are
`middle ± std_dev × rolling std`. -/
def BollingerBandStrategy.calculateBollingerBands (sq : ℚ → ℚ) (period : ℕ)
    (stdDev : ℚ) (df : Option (List Candle)) : Option BollingerValues :=
  match df with
  | none => none
  | some candles =>
    if candles.length < period + 1 then none
    else if period = 0 then none
    else
      let closes := candles.map (·.close)
      let closesS : List SVal := closes.map some
      let middleBand := rollingMean period closesS
      let std := rollingStd sq period closesS
      let upperBand := List.zipWith (fun m s => optAdd m (s.map (· * stdDev))) middleBand std
      let lowerBand := List.zipWith (fun m s => optSub m (s.map (· * stdDev))) middleBand std
      match iloc1 closes, iloc2 closes, iloc1 upperBand, iloc1 middleBand,
          iloc1 lowerBand, iloc2 upperBand, iloc2 middleBand, iloc2 lowerBand with
      | some cp, some pp, some ub, some mb, some lb, some pub, some pmb, some plb =>
        some { currentPrice := cp, prevPrice := pp, upperBand := ub, middleBand := mb,
               lowerBand := lb, prevUpperBand := pub, prevMiddleBand := pmb,
               prevLowerBand := plb }
      | _, _, _, _, _, _, _, _ => none

/-- `BollingerBandStrategy.should_buy`: previous close below the previous
lower band and current close at/above the current lower band. -/
def BollingerBandStrategy.shouldBuy (sq : ℚ → ℚ) (period : ℕ) (stdDev : ℚ)
    (df : Option (List Candle)) : Bool :=
  match BollingerBandStrategy.calculateBollingerBands sq period stdDev df with
  | none => false
  | some bb => optLt (some bb.prevPrice) bb.prevLowerBand
      && optGe (some bb.currentPrice) bb.lowerBand

/-- `BollingerBandStrategy.should_sell`: previous close above the previous
upper band and current close at/below the current upper band. -/
def BollingerBandStrategy.shouldSell (sq : ℚ → ℚ) (period : ℕ) (stdDev : ℚ)
    (df : Option (List Candle)) : Bool :=
  match BollingerBandStrategy.calculateBollingerBands sq period stdDev df with
  | none => false
  | some bb => optGt (some bb.prevPrice) bb.prevUpperBand
      && optLe (some bb.currentPrice) bb.upperBand

/-- The dictionary returned by `MACDStrategy._calculate_macd`; every entry is
an ordinary float since `ewm(adjust=False)` never produces NaN on a defined
input series. -/
structure MACDValues where
  macd : ℚ
  signalVal : ℚ
  histogram : ℚ
  prevMacd : ℚ
  prevSignal : ℚ
deriving DecidableEq, Repr

/-- `MACDStrategy._calculate_macd`: requires at least
`slow_period + signal_period` rows; `ewm` spans must be ≥ 1 (pandas raises
otherwise, caught by the `except` handler). -/
def MACDStrategy.calculateMacd (fastPeriod slowPeriod signalPeriod : ℕ)
    (df : Option (List Candle)) : Option MACDValues :=
  match df with
  | none => none
  | some candles =>
    if candles.length < slowPeriod + signalPeriod then none
    else if fastPeriod = 0 ∨ slowPeriod = 0 ∨ signalPeriod = 0 then none
    else
      let closes := candles.map (·.close)
      let fastEma := ewmMean fastPeriod closes
      let slowEma := ewmMean slowPeriod closes
      let macdLine := zipSub fastEma slowEma
      let signalLine := ewmMean signalPeriod macdLine
      let histogram := zipSub macdLine signalLine
      match iloc1 macdLine, iloc1 signalLine, iloc1 histogram,
          iloc2 macdLine, iloc2 signalLine with
      | some m, some s, some h, some pm, some ps =>
        some { macd := m, signalVal := s, histogram := h, prevMacd := pm, prevSignal := ps }
      | _, _, _, _, _ => none

/-- `MACDStrategy.should_buy`: bullish crossover,
`prev_macd <= prev_signal and macd > signal`. -/
def MACDStrategy.shouldBuy (fastPeriod slowPeriod signalPeriod : ℕ)
    (df : Option (List Candle)) : Bool :=
  match MACDStrategy.calculateMacd fastPeriod slowPeriod signalPeriod df with
  | none => false
  | some m => decide (m.prevMacd ≤ m.prevSignal) && decide (m.signalVal < m.macd)

/-- `MACDStrategy.should_sell`: bearish crossover. -/
def MACDStrategy.shouldSell (fastPeriod slowPeriod signalPeriod : ℕ)
    (df : Option (List Candle)) : Bool :=
  match MACDStrategy.calculateMacd fastPeriod slowPeriod signalPeriod df with
  | none => false
  | some m => decide (m.prevSignal ≤ m.prevMacd) && decide (m.macd < m.signalVal)

/-- The dictionary returned by `StochasticStrategy._calculate_stochastic`. -/
structure StochasticValues where
  k : SVal
  d : SVal
  prevK : SVal
  prevD : SVal

/-- Float division used by `%K`: a zero denominator produces an IEEE
non-finite value (`±inf` or NaN for `0/0`); no claim exercises a flat
`k_period` window, so both are modeled as undefined. -/
def stochDiv : SVal → SVal → SVal
  | some a, some b => if b = 0 then none else some (a / b)
  | _, _ => none

/-- `StochasticStrategy._calculate_stochastic`: requires at least
`k_period + d_period` rows;
`%K = 100 × (close − rolling min low) / (rolling max high − rolling min low)`,
`%D` = rolling `d_period` mean of `%K`. -/
def StochasticStrategy.calculateStochastic (kPeriod dPeriod : ℕ)
    (df : Option (List Candle)) : Option StochasticValues :=
  match df with
  | none => none
  | some candles =>
    if candles.length < kPeriod + dPeriod then none
    else if kPeriod = 0 ∨ dPeriod = 0 then none
    else
      let lows : List SVal := candles.map fun c => some c.low
      let highs : List SVal := candles.map fun c => some c.high
      let closes : List SVal := candles.map fun c => some c.close
      let lowestLow := rollingMin kPeriod lows
      let highestHigh := rollingMax kPeriod highs
      let kPercent := (List.range candles.length).map fun i =>
        match closes.get? i, lowestLow.get? i, highestHigh.get? i with
        | some c, some lo, some hi =>
          (stochDiv (optSub c lo) (optSub hi lo)).map (100 * ·)
        | _, _, _ => none
      let dPercent := rollingMean dPeriod kPercent
      match iloc1 kPercent, iloc1 dPercent, iloc2 kPercent, iloc2 dPercent with
      | some k, some d, some pk, some pd =>
        some { k := k, d := d, prevK := pk, prevD := pd }
      | _, _, _, _ => none

/-- `StochasticStrategy.should_buy`: `%K` below the oversold threshold and a
bullish `%K`/`%D` crossover. -/
def StochasticStrategy.shouldBuy (kPeriod dPeriod : ℕ) (oversold overbought : ℚ)
    (df : Option (List Candle)) : Bool :=
  match StochasticStrategy.calculateStochastic kPeriod dPeriod df with
  | none => false
  | some st => optLt st.k (some oversold) && (optLe st.prevK st.prevD && optGt st.k st.d)

/-- `StochasticStrategy.should_sell`: `%K` above the overbought threshold and
a bearish crossover. -/
def StochasticStrategy.shouldSell (kPeriod dPeriod : ℕ) (oversold overbought : ℚ)
    (df : Option (List Candle)) : Bool :=
  match StochasticStrategy.calculateStochastic kPeriod dPeriod df with
  | none => false
  | some st => optGt st.k (some overbought) && (optGe st.prevK st.prevD && optLt st.k st.d)

/-- A non-composite strategy instance together with its constructor
arguments, as instantiated by the scheduler and the composite strategy. -/
inductive SubStrategy where
  | movingAverage (shortPeriod longPeriod : ℕ)
  | rsi (period : ℕ) (oversold overbought : ℚ)
  | bollinger (period : ℕ) (stdDev : ℚ)
  | macd (fastPeriod slowPeriod signalPeriod : ℕ)
  | stochastic (kPeriod dPeriod : ℕ) (oversold overbought : ℚ)
deriving DecidableEq, Repr

/-- Dispatch of `should_buy` over the base strategy classes. -/
def SubStrategy.shouldBuy (sq : ℚ → ℚ) (s : SubStrategy)
    (df : Option (List Candle)) : Bool :=
  match s with
  | .movingAverage sp lp => MovingAverageStrategy.shouldBuy sp lp df
  | .rsi p os ob => RSIStrategy.shouldBuy p os ob df
  | .bollinger p sd => BollingerBandStrategy.shouldBuy sq p sd df
  | .macd f sl sg => MACDStrategy.shouldBuy f sl sg df
  | .stochastic k d os ob => StochasticStrategy.shouldBuy k d os ob df

/-- Dispatch of `should_sell` over the base strategy classes. -/
def SubStrategy.shouldSell (sq : ℚ → ℚ) (s : SubStrategy)
    (df : Option (List Candle)) : Bool :=
  match s with
  | .movingAverage sp lp => MovingAverageStrategy.shouldSell sp lp df
  | .rsi p os ob => RSIStrategy.shouldSell p os ob df
  | .bollinger p sd => BollingerBandStrategy.shouldSell sq p sd df
  | .macd f sl sg => MACDStrategy.shouldSell f sl sg df
  | .stochastic k d os ob => StochasticStrategy.shouldSell k d os ob df

/-- `CompositeStrategy.should_buy`: the count of sub-strategies signalling
buy must reach `min_confirmations` (a plain integer comparison — a
non-positive threshold is reached by a zero count). -/
def CompositeStrategy.shouldBuy (sq : ℚ → ℚ) (strategies : List SubStrategy)
    (minConfirmations : ℤ) (df : Option (List Candle)) : Bool :=
  decide (minConfirmations ≤ (strategies.countP (fun s => SubStrategy.shouldBuy sq s df) : ℤ))

/-- `CompositeStrategy.should_sell`. -/
def CompositeStrategy.shouldSell (sq : ℚ → ℚ) (strategies : List SubStrategy)
    (minConfirmations : ℤ) (df : Option (List Candle)) : Bool :=
  decide (minConfirmations ≤ (strategies.countP (fun s => SubStrategy.shouldSell sq s df) : ℤ))

/-- A strategy instance as built by the scheduler dispatch: either one of the
five base classes or a one-level composite of base classes (the scheduler
never nests composites). -/
inductive StrategyInst where
  | base (s : SubStrategy)
  | composite (strategies : List SubStrategy) (minConfirmations : ℤ)
deriving DecidableEq, Repr

/-- `should_buy` of a strategy instance. -/
def StrategyInst.shouldBuy (sq : ℚ → ℚ) (s : StrategyInst)
    (df : Option (List Candle)) : Bool :=
  match s with
  | .base b => b.shouldBuy sq df
  | .composite subs mc => CompositeStrategy.shouldBuy sq subs mc df

/-- `should_sell` of a strategy instance. -/
def StrategyInst.shouldSell (sq : ℚ → ℚ) (s : StrategyInst)
    (df : Option (List Candle)) : Bool :=
  match s with
  | .base b => b.shouldSell sq df
  | .composite subs mc => CompositeStrategy.shouldSell sq subs mc df

/-! ## Data model (`app/models/database.py`) and gateway
(`app/services/bithumb_api.py`) -/

/-- Python truthiness of an optional string (`None` and `""` are falsy). -/
def strTruthy : Option String → Bool
  | none => false
  | some s => decide (s ≠ "")

/-- Python truthiness of an optional float (`None` and `0.0` are falsy). -/
def ratTruthy : Option ℚ → Bool
  | none => false
  | some x => decide (x ≠ 0)

/-- `OrderType` enumeration. -/
inductive OrderType where
  | buy
  | sell
deriving DecidableEq, Repr

/-- `OrderStatus` enumeration. -/
inductive OrderStatus where
  | pending
  | completed
  | failed
  | cancelled
deriving DecidableEq, Repr

/-- An `orders` row.  `id` is the auto-increment primary key, assigned as the
row count at insertion time; `orderId` is the exchange's external order id. -/
structure Order where
  id : ℕ
  orderType : OrderType
  coin : String
  currency : String
  amount : ℚ
  price : ℚ
  total : ℚ
  status : OrderStatus
  orderId : Option String
  strategyId : Option ℕ
  errorMessage : Option String
deriving DecidableEq, Repr

/-- A `trades` row. -/
structure Trade where
  orderId : ℕ
  coin : String
  currency : String
  tradeType : OrderType
  amount : ℚ
  price : ℚ
  total : ℚ
  fee : ℚ
  profit : Option ℚ
deriving DecidableEq, Repr

/-- A `balances` row (one per coin, `coin` is unique). -/
structure BalanceRow where
  coin : String
  total : ℚ
  available : ℚ
  inUse : ℚ
  avgBuyPrice : Option ℚ
deriving DecidableEq, Repr

/-- The free-text `message` strings the scheduler writes into
`StrategyExecutionLog`, one constructor per f-string in the source, carrying
the interpolated values:
* `budgetLimitReached t l` —
  `"Buy order skipped: max buy amount limit reached (t/l KRW)"`,
* `buyOrder e a c` — `"Buy order {'executed' if e else 'created'}: a c"`,
* `sellOrder e a c` — `"Sell order {'executed' if e else 'created'}: a c"`,
* `riskSell reason a c` — `"{reason} sell order: a c"`,
* `noSignal` — `"Strategy checked - no signal"`. -/
inductive LogMsg where
  | budgetLimitReached (totalInvested limit : ℚ)
  | buyOrder (executed : Bool) (amount : ℚ) (coin : String)
  | sellOrder (executed : Bool) (amount : ℚ) (coin : String)
  | riskSell (reason : String) (amount : ℚ) (coin : String)
  | noSignal
deriving DecidableEq, Repr

/-- A `strategy_execution_logs` row (`StrategyExecutionLog`). -/
structure LogEntry where
  strategyId : ℕ
  strategyName : String
  coin : String
  signal : Option String
  executed : Bool
  orderId : Option ℕ
  message : Option LogMsg
  error : Option String
deriving DecidableEq, Repr

/-- JSON parameter bag of a sub-strategy inside a composite configuration
(`st.get("params", {})`); absent keys are `none` and defaulted at the read
site with `params.get(key, default)`. -/
structure SubParams where
  shortPeriod : Option ℕ := none
  longPeriod : Option ℕ := none
  period : Option ℕ := none
  stdDev : Option ℚ := none
  oversold : Option ℚ := none
  overbought : Option ℚ := none
  fastPeriod : Option ℕ := none
  slowPeriod : Option ℕ := none
  signalPeriod : Option ℕ := none
  kPeriod : Option ℕ := none
  dPeriod : Option ℕ := none
deriving DecidableEq, Repr

/-- One entry of the composite configuration's `strategy_types` list:
`{"type": ..., "params": {...}}`. -/
structure SubStrategySpec where
  type : String
  params : SubParams
deriving DecidableEq, Repr

/-- The top-level JSON parameter bag of a `TradingStrategy` row. -/
structure ParamBag extends SubParams where
  strategyTypes : Option (List SubStrategySpec) := none
  minConfirmations : Option ℤ := none
  tradeAmount : Option ℚ := none
  tradeAmountKrw : Option ℚ := none
  profitTarget : Option ℚ := none
  stopLoss : Option ℚ := none
deriving DecidableEq, Repr

/-- The `parameters` column: SQL NULL, a string that fails `json.loads`, or a
parsed JSON object. -/
inductive ParamsField where
  | absent
  | invalid
  | parsed (bag : ParamBag)
deriving DecidableEq, Repr

/-- A `trading_strategies` row (imported as `TradingStrategyModel` in the
scheduler). -/
structure TradingStrategyModel where
  id : ℕ
  userId : ℕ
  name : String
  coin : String
  enabled : Bool
  strategyType : String
  parameters : ParamsField
  maxBuyAmount : Option ℚ
  highestPrice : Option ℚ
deriving DecidableEq, Repr

/-- The fields of a `users` row that the scheduler reads. -/
structure User where
  id : ℕ
  username : String
  bithumbApiKey : Option String
  bithumbApiSecret : Option String
deriving DecidableEq, Repr

/-- Response of `BithumbAPI.get_balance`: always a dict with these four keys
(every error path returns the zero dict with `avg_buy_price = None`). -/
structure GwBalance where
  total : ℚ
  available : ℚ
  inUse : ℚ
  avgBuyPrice : Option ℚ
deriving DecidableEq, Repr

/-- Response dict of an order-placement call: `None` models a transport
failure, otherwise `status` (success is `"0000"`), an optional `message`
and an optional `order_id`. -/
structure ApiResult where
  status : String
  message : Option String
  orderId : Option String
deriving DecidableEq, Repr

/-- One fixed snapshot of the market data gateway: the responses the
`BithumbAPI` client returns during the cycle under consideration, indexed by
coin symbol. -/
structure Gateway where
  currentPrice : String → Option ℚ
  ohlcv : String → Option (List Candle)
  getBalance : String → GwBalance
  buyLimitOrder : String → ℚ → ℚ → Option ApiResult
  buyMarketOrder : String → ℚ → Option ApiResult
  sellLimitOrder : String → ℚ → ℚ → Option ApiResult
  sellMarketOrder : String → ℚ → Option ApiResult

/-- The durable store touched by the engine and the scheduler: the four
tables plus the strategy configurations. -/
structure Db where
  orders : List Order
  trades : List Trade
  balances : List BalanceRow
  logs : List LogEntry
  strategies : List TradingStrategyModel

/-- `db.query(Balance).filter(Balance.coin == coin).first()`. -/
def findBalance (balances : List BalanceRow) (coin : String) : Option BalanceRow :=
  balances.find? fun b => decide (b.coin = coin)

/-- Overwrite the (unique) balance row of a coin, or insert it. -/
def setBalance (balances : List BalanceRow) (coin : String) (b : BalanceRow) :
    List BalanceRow :=
  if balances.any (fun x => decide (x.coin = coin)) then
    balances.map fun x => if x.coin = coin then b else x
  else balances ++ [b]

/-! ## Order execution engine (`app/services/trading_engine.py`) -/

/-- `MIN_ORDER_AMOUNT_KRW = 5500`. -/
def MIN_ORDER_AMOUNT_KRW : ℚ := 5500

/-- The minimum-notional adjustment of `execute_buy_order` /
`execute_sell_order`: when `amount * price` is below the exchange minimum,
the amount is raised to `(MIN_ORDER_AMOUNT_KRW * 1.1) / price`. -/
def TradingEngine.adjustAmount (amount price : ℚ) : ℚ :=
  if amount * price < MIN_ORDER_AMOUNT_KRW then
    (MIN_ORDER_AMOUNT_KRW * (11 / 10)) / price
  else amount

/-- Price resolution shared by both order paths: an explicit price is used as
given, otherwise the current market price is fetched from the gateway. -/
def TradingEngine.resolvePrice (g : Gateway) (coin : String) (price : Option ℚ) :
    Option ℚ :=
  match price with
  | some p => some p
  | none => g.currentPrice coin

/-- `TradingEngine._create_trade_record`: appends a `Trade` for a persisted
order; for sells the profit is computed against the balance row's average
buy price as currently stored (`if balance and balance.avg_buy_price`, so a
missing row or a zero/NULL average yields `profit = None`).  The fee is
`total * 0.0005`. -/
def TradingEngine.createTradeRecord (db : Db) (order : Order) : Db :=
  let profit : Option ℚ :=
    if order.orderType = OrderType.sell then
      match findBalance db.balances order.coin with
      | some balance =>
        match balance.avgBuyPrice with
        | some c => if c = 0 then none else some ((order.price - c) * order.amount)
        | none => none
      | none => none
    else none
  let trade : Trade :=
    { orderId := order.id, coin := order.coin, currency := order.currency,
      tradeType := order.orderType, amount := order.amount, price := order.price,
      total := order.total, fee := order.total * (1 / 2000), profit := profit }
  { db with trades := db.trades ++ [trade] }

/-- `TradingEngine._update_balance`: `amount` is positive for buys and
negative for sells.  A buy recomputes the volume-weighted average cost
(`(total*(avg or 0) + amount*price) / new_total`, falling back to `price`
when the new total is not positive); a sell only adds the (negative) amount
to the total.  `available` is then mirrored from `total`. -/
def TradingEngine.updateBalance (db : Db) (coin : String) (amount price : ℚ) : Db :=
  let b := (findBalance db.balances coin).getD
    { coin := coin, total := 0, available := 0, inUse := 0, avgBuyPrice := none }
  let b' :=
    if 0 < amount then
      let totalValue := b.total * (b.avgBuyPrice.getD 0) + amount * price
      let newTotal := b.total + amount
      { b with total := newTotal,
               avgBuyPrice := some (if 0 < newTotal then totalValue / newTotal else price) }
    else
      { b with total := b.total + amount }
  let b'' := { b' with available := b'.total }
  { db with balances := setBalance db.balances coin b'' }

/-- `TradingEngine.execute_buy_order`.  Returns the new store and the
persisted order.  Every branch persists exactly one row: price-fetch failure
⇒ `failed` with the sentinel message; gateway success (`status == "0000"`)
⇒ `completed` plus a trade record and a balance update; gateway failure or
`None` ⇒ `failed` with the gateway message (or a fallback); trading disabled
⇒ `pending`. -/
def TradingEngine.executeBuyOrder (g : Gateway) (tradingEnabled : Bool)
    (defaultCurrency : String) (db : Db) (coin : String) (amount : ℚ)
    (price : Option ℚ) (strategyId : Option ℕ) : Db × Order :=
  match TradingEngine.resolvePrice g coin price with
  | none =>
    let order : Order :=
      { id := db.orders.length, orderType := .buy, coin := coin,
        currency := defaultCurrency, amount := amount, price := 0, total := 0,
        status := .failed, orderId := none, strategyId := strategyId,
        errorMessage := some "Failed to get current price" }
    ({ db with orders := db.orders ++ [order] }, order)
  | some p =>
    let amount' := TradingEngine.adjustAmount amount p
    let total' := amount' * p
    if tradingEnabled then
      -- `if price:` — a zero price is falsy and routes to the market order.
      let result := if p ≠ 0 then g.buyLimitOrder coin p amount'
                    else g.buyMarketOrder coin amount'
      match result with
      | some r =>
        if r.status = "0000" then
          let order : Order :=
            { id := db.orders.length, orderType := .buy, coin := coin,
              currency := defaultCurrency, amount := amount', price := p,
              total := total', status := .completed, orderId := r.orderId,
              strategyId := strategyId, errorMessage := none }
          let db1 := { db with orders := db.orders ++ [order] }
          let db2 := TradingEngine.createTradeRecord db1 order
          let db3 := TradingEngine.updateBalance db2 coin amount' p
          (db3, order)
        else
          let order : Order :=
            { id := db.orders.length, orderType := .buy, coin := coin,
              currency := defaultCurrency, amount := amount', price := p,
              total := total', status := .failed, orderId := none,
              strategyId := strategyId,
              errorMessage := some (r.message.getD "Unknown error") }
          ({ db with orders := db.orders ++ [order] }, order)
      | none =>
        let order : Order :=
          { id := db.orders.length, orderType := .buy, coin := coin,
            currency := defaultCurrency, amount := amount', price := p,
            total := total', status := .failed, orderId := none,
            strategyId := strategyId, errorMessage := some "API call failed" }
        ({ db with orders := db.orders ++ [order] }, order)
    else
      let order : Order :=
        { id := db.orders.length, orderType := .buy, coin := coin,
          currency := defaultCurrency, amount := amount', price := p,
          total := total', status := .pending, orderId := none,
          strategyId := strategyId, errorMessage := some "Trading is disabled" }
      ({ db with orders := db.orders ++ [order] }, order)

/-- `TradingEngine.execute_sell_order`; mirrors the buy path, except the
trade record carries a realized profit (computed before the balance update)
and the balance update receives the negated amount. -/
def TradingEngine.executeSellOrder (g : Gateway) (tradingEnabled : Bool)
    (defaultCurrency : String) (db : Db) (coin : String) (amount : ℚ)
    (price : Option ℚ) (strategyId : Option ℕ) : Db × Order :=
  match TradingEngine.resolvePrice g coin price with
  | none =>
    let order : Order :=
      { id := db.orders.length, orderType := .sell, coin := coin,
        currency := defaultCurrency, amount := amount, price := 0, total := 0,
        status := .failed, orderId := none, strategyId := strategyId,
        errorMessage := some "Failed to get current price" }
    ({ db with orders := db.orders ++ [order] }, order)
  | some p =>
    let amount' := TradingEngine.adjustAmount amount p
    let total' := amount' * p
    if tradingEnabled then
      let result := if p ≠ 0 then g.sellLimitOrder coin p amount'
                    else g.sellMarketOrder coin amount'
      match result with
      | some r =>
        if r.status = "0000" then
          let order : Order :=
            { id := db.orders.length, orderType := .sell, coin := coin,
              currency := defaultCurrency, amount := amount', price := p,
              total := total', status := .completed, orderId := r.orderId,
              strategyId := strategyId, errorMessage := none }
          let db1 := { db with orders := db.orders ++ [order] }
          let db2 := TradingEngine.createTradeRecord db1 order
          let db3 := TradingEngine.updateBalance db2 coin (-amount') p
          (db3, order)
        else
          let order : Order :=
            { id := db.orders.length, orderType := .sell, coin := coin,
              currency := defaultCurrency, amount := amount', price := p,
              total := total', status := .failed, orderId := none,
              strategyId := strategyId,
              errorMessage := some (r.message.getD "Unknown error") }
          ({ db with orders := db.orders ++ [order] }, order)
      | none =>
        let order : Order :=
          { id := db.orders.length, orderType := .sell, coin := coin,
            currency := defaultCurrency, amount := amount', price := p,
            total := total', status := .failed, orderId := none,
            strategyId := strategyId, errorMessage := some "API call failed" }
        ({ db with orders := db.orders ++ [order] }, order)
    else
      let order : Order :=
        { id := db.orders.length, orderType := .sell, coin := coin,
          currency := defaultCurrency, amount := amount', price := p,
          total := total', status := .pending, orderId := none,
          strategyId := strategyId, errorMessage := some "Trading is disabled" }
      ({ db with orders := db.orders ++ [order] }, order)

/-! ## Execution control loop (`app/services/scheduler.py`)

Gateway reads that only feed `logger` output (the current price, balance and
Bollinger-band pretty-printing in `_execute_strategy`) have no effect on the
store and are not modeled. -/

/-- `db.query(User).filter(User.id == user_id).first()`. -/
def findUser (users : List User) (userId : ℕ) : Option User :=
  users.find? fun u => decide (u.id = userId)

/-- `TradingScheduler._log_execution`: append one `StrategyExecutionLog`
row. -/
def TradingScheduler.logExecution (db : Db) (sm : TradingStrategyModel)
    (signal : Option String) (executed : Bool) (orderId : Option ℕ)
    (message : Option LogMsg) (error : Option String) : Db :=
  { db with logs := db.logs ++
      [{ strategyId := sm.id, strategyName := sm.name, coin := sm.coin,
         signal := signal, executed := executed, orderId := orderId,
         message := message, error := error }] }

/-- The sub-strategy dispatch inside the `composite` branch of
`_execute_strategy`: the five known type strings are instantiated with their
parameter defaults; any other entry of `strategy_types` is silently
skipped. -/
def TradingScheduler.buildSubStrategy (st : SubStrategySpec) : Option SubStrategy :=
  if st.type = "moving_average" then
    some (.movingAverage (st.params.shortPeriod.getD 5) (st.params.longPeriod.getD 20))
  else if st.type = "rsi" then
    some (.rsi (st.params.period.getD 14) (st.params.oversold.getD 30)
      (st.params.overbought.getD 70))
  else if st.type = "bollinger" then
    some (.bollinger (st.params.period.getD 20) (st.params.stdDev.getD 2))
  else if st.type = "macd" then
    some (.macd (st.params.fastPeriod.getD 12) (st.params.slowPeriod.getD 26)
      (st.params.signalPeriod.getD 9))
  else if st.type = "stochastic" then
    some (.stochastic (st.params.kPeriod.getD 14) (st.params.dPeriod.getD 3)
      (st.params.oversold.getD 20) (st.params.overbought.getD 80))
  else none

/-- The `strategy_type` dispatch of `_execute_strategy`, with the parameter
defaults of each branch; an unknown type leaves `strategy = None` and the
method returns without logging. -/
def TradingScheduler.buildStrategy (strategyType : String) (params : ParamBag) :
    Option StrategyInst :=
  if strategyType = "moving_average" then
    some (.base (.movingAverage (params.shortPeriod.getD 5) (params.longPeriod.getD 20)))
  else if strategyType = "bollinger" then
    some (.base (.bollinger (params.period.getD 20) (params.stdDev.getD 2)))
  else if strategyType = "rsi" then
    some (.base (.rsi (params.period.getD 14) (params.oversold.getD 30)
      (params.overbought.getD 70)))
  else if strategyType = "macd" then
    some (.base (.macd (params.fastPeriod.getD 12) (params.slowPeriod.getD 26)
      (params.signalPeriod.getD 9)))
  else if strategyType = "stochastic" then
    some (.base (.stochastic (params.kPeriod.getD 14) (params.dPeriod.getD 3)
      (params.oversold.getD 20) (params.overbought.getD 80)))
  else if strategyType = "composite" then
    some (.composite
      ((params.strategyTypes.getD []).filterMap TradingScheduler.buildSubStrategy)
      (params.minConfirmations.getD 2))
  else none

/-- The budget query of `_execute_strategy`: sum of `Order.total` over this
strategy's completed buy orders (`or 0.0` for an empty sum). -/
def TradingScheduler.totalInvested (db : Db) (strategyId : ℕ) : ℚ :=
  ((db.orders.filter fun o =>
      decide (o.strategyId = some strategyId ∧ o.orderType = OrderType.buy ∧
        o.status = OrderStatus.completed)).map Order.total).sum

/-- The buy-execution block of `_execute_strategy` (engine call followed by
its log row). -/
def TradingScheduler.executeBuyAndLog (g : Gateway) (tradingEnabled : Bool)
    (defaultCurrency : String) (db : Db) (sm : TradingStrategyModel)
    (tradeAmount : ℚ) : Db :=
  let res := TradingEngine.executeBuyOrder g tradingEnabled defaultCurrency db
    sm.coin tradeAmount none (some sm.id)
  TradingScheduler.logExecution res.1 sm (some "buy")
    (decide (res.2.status = .completed)) (some res.2.id)
    (some (.buyOrder (decide (res.2.status = .completed)) res.2.amount sm.coin)) none

/-- The tail of `_execute_strategy` after credentials and parameters have
been resolved: strategy dispatch, signal evaluation and trade execution. -/
def TradingScheduler.executeStrategySignals (sq : ℚ → ℚ) (g : Gateway)
    (tradingEnabled : Bool) (defaultCurrency : String) (db : Db)
    (sm : TradingStrategyModel) (params : ParamBag) : Db :=
  match TradingScheduler.buildStrategy sm.strategyType params with
  | none => db
  | some strategy =>
    let shouldBuy := strategy.shouldBuy sq (g.ohlcv sm.coin)
    let shouldSell := strategy.shouldSell sq (g.ohlcv sm.coin)
    if shouldBuy then
      let tradeAmount := params.tradeAmount.getD (1 / 1000)
      let tradeAmountKrw := params.tradeAmountKrw.getD 10000
      if ratTruthy sm.maxBuyAmount && decide (0 < sm.maxBuyAmount.getD 0) then
        let invested := TradingScheduler.totalInvested db sm.id
        if decide (sm.maxBuyAmount.getD 0 < invested + tradeAmountKrw) then
          TradingScheduler.logExecution db sm (some "buy") false none
            (some (.budgetLimitReached invested (sm.maxBuyAmount.getD 0))) none
        else
          TradingScheduler.executeBuyAndLog g tradingEnabled defaultCurrency db sm
            tradeAmount
      else
        TradingScheduler.executeBuyAndLog g tradingEnabled defaultCurrency db sm
          tradeAmount
    else if shouldSell then
      let tradeAmount := params.tradeAmount.getD (1 / 1000)
      let res := TradingEngine.executeSellOrder g tradingEnabled defaultCurrency db
        sm.coin tradeAmount none (some sm.id)
      TradingScheduler.logExecution res.1 sm (some "sell")
        (decide (res.2.status = .completed)) (some res.2.id)
        (some (.sellOrder (decide (res.2.status = .completed)) res.2.amount sm.coin)) none
    else
      TradingScheduler.logExecution db sm none false none (some .noSignal) none

/-- `TradingScheduler._execute_strategy` for one strategy row.  Early
returns: a missing owner, unparseable JSON parameters, and an unknown
strategy type leave the store untouched (only `logger` output); missing API
credentials write one log row.  Otherwise the signal branch runs: a buy is
first checked against `max_buy_amount` (skip + log without any engine call
when the budget would be exceeded), and each of the buy / sell / no-signal
branches writes exactly one log row. -/
def TradingScheduler.executeStrategy (sq : ℚ → ℚ) (g : Gateway)
    (tradingEnabled : Bool) (defaultCurrency : String) (users : List User)
    (db : Db) (sm : TradingStrategyModel) : Db :=
  match findUser users sm.userId with
  | none => db
  | some user =>
    if ¬ (strTruthy user.bithumbApiKey && strTruthy user.bithumbApiSecret) then
      TradingScheduler.logExecution db sm none false none none
        (some ("User " ++ user.username ++ " has no API credentials configured"))
    else
      match sm.parameters with
      | .invalid => db
      | .absent => TradingScheduler.executeStrategySignals sq g tradingEnabled
          defaultCurrency db sm {}
      | .parsed bag => TradingScheduler.executeStrategySignals sq g tradingEnabled
          defaultCurrency db sm bag

/-- Parameter-column parsing as done in
`_check_profit_targets_and_stop_losses`: a NULL column yields the empty bag,
a JSON decode error skips the strategy (`none`). -/
def paramsOf : ParamsField → Option ParamBag
  | .absent => some {}
  | .invalid => none
  | .parsed bag => some bag

/-- `TradingScheduler._execute_profit_target_sell`: a full-available sell
through the engine plus one log row (`reasonText` is
`"Profit target"` or `"Stop loss"`). -/
def TradingScheduler.executeProfitTargetSell (g : Gateway) (tradingEnabled : Bool)
    (defaultCurrency : String) (db : Db) (sm : TradingStrategyModel) (amount : ℚ)
    (reasonText : String) : Db :=
  let res := TradingEngine.executeSellOrder g tradingEnabled defaultCurrency db
    sm.coin amount none (some sm.id)
  TradingScheduler.logExecution res.1 sm (some "sell")
    (decide (res.2.status = .completed)) (some res.2.id)
    (some (.riskSell reasonText res.2.amount sm.coin)) none

/-- The threshold comparison of the risk pass once a cost basis has been
resolved: fetch the current price (`None` and `0.0` both skip), compute
`profit% = (current − avg) / avg × 100`, and sell the gateway-reported
available amount (`balance_data.get("available", coin_total)` — the key is
always present in the gateway dict) on a hit. -/
def TradingScheduler.riskSellIfTriggered (g : Gateway) (tradingEnabled : Bool)
    (defaultCurrency : String) (db : Db) (sm : TradingStrategyModel)
    (bd : GwBalance) (profitTarget stopLoss : Option ℚ) (avgPrice : ℚ) : Db :=
  match g.currentPrice sm.coin with
  | none => db
  | some currentPrice =>
    if currentPrice = 0 then db
    else
      let profitPercentage := (currentPrice - avgPrice) / avgPrice * 100
      if ratTruthy profitTarget && decide (profitTarget.getD 0 ≤ profitPercentage) then
        TradingScheduler.executeProfitTargetSell g tradingEnabled defaultCurrency db
          sm bd.available "Profit target"
      else if ratTruthy stopLoss && decide (0 < stopLoss.getD 0)
          && decide (profitPercentage ≤ -(stopLoss.getD 0)) then
        TradingScheduler.executeProfitTargetSell g tradingEnabled defaultCurrency db
          sm bd.available "Stop loss"
      else db

/-- One strategy's turn in `_check_profit_targets_and_stop_losses`: skip
silently on missing owner/credentials, bad parameters, no configured
threshold, or no resolvable holdings/cost basis (gateway first, local
balance row as fallback); otherwise check the thresholds. -/
def TradingScheduler.checkOneStrategyRisk (g : Gateway) (tradingEnabled : Bool)
    (defaultCurrency : String) (users : List User) (db : Db)
    (sm : TradingStrategyModel) : Db :=
  match findUser users sm.userId with
  | none => db
  | some user =>
    if ¬ (strTruthy user.bithumbApiKey && strTruthy user.bithumbApiSecret) then db
    else
      match paramsOf sm.parameters with
      | none => db
      | some bag =>
        if ¬ (ratTruthy bag.profitTarget || ratTruthy bag.stopLoss) then db
        else
          let bd := g.getBalance sm.coin
          if bd.total ≤ 0 ∨ ¬ ratTruthy bd.avgBuyPrice then
            match findBalance db.balances sm.coin with
            | none => db
            | some balance =>
              if balance.total ≤ 0 then db
              else if ¬ ratTruthy balance.avgBuyPrice then db
              else TradingScheduler.riskSellIfTriggered g tradingEnabled
                defaultCurrency db sm bd bag.profitTarget bag.stopLoss
                (balance.avgBuyPrice.getD 0)
          else
            TradingScheduler.riskSellIfTriggered g tradingEnabled defaultCurrency
              db sm bd bag.profitTarget bag.stopLoss (bd.avgBuyPrice.getD 0)

/-- `TradingScheduler._check_profit_targets_and_stop_losses`: the risk pass
over all enabled strategies. -/
def TradingScheduler.checkProfitTargetsAndStopLosses (g : Gateway)
    (tradingEnabled : Bool) (defaultCurrency : String) (users : List User)
    (db : Db) : Db :=
  (db.strategies.filter (·.enabled)).foldl
    (TradingScheduler.checkOneStrategyRisk g tradingEnabled defaultCurrency users) db

/-- `TradingScheduler.run_strategy_checks`: one full control-loop cycle —
the risk pass first, then the signal pass over all enabled strategies (the
signal pass does not exclude strategies already acted on by the risk
pass). -/
def TradingScheduler.runStrategyChecks (sq : ℚ → ℚ) (g : Gateway)
    (tradingEnabled : Bool) (defaultCurrency : String) (users : List User)
    (db : Db) : Db :=
  let db1 := TradingScheduler.checkProfitTargetsAndStopLosses g tradingEnabled
    defaultCurrency users db
  (db1.strategies.filter (·.enabled)).foldl
    (fun d sm => TradingScheduler.executeStrategy sq g tradingEnabled
      defaultCurrency users d sm) db1

/-! ## Simulation engine (`app/services/backtesting.py`) -/

/-- The lookback guard of the `run_backtest` replay loop:
`max(strategy.short_period if hasattr(strategy, 'short_period') else 0,
strategy.period if hasattr(strategy, 'period') else 0)`.  Only the
moving-average class has a `short_period` attribute and only the RSI and
Bollinger classes have a `period` attribute. -/
def Backtester.lookbackGuard : StrategyInst → ℕ
  | .base (.movingAverage shortPeriod _) => max shortPeriod 0
  | .base (.rsi period _ _) => max 0 period
  | .base (.bollinger period _) => max 0 period
  | .base (.macd _ _ _) => 0
  | .base (.stochastic _ _ _ _) => 0
  | .composite _ _ => 0

/-- `df.tail(days)`: the last `days` rows. -/
def Backtester.dfTail (days : ℕ) (xs : List Candle) : List Candle :=
  xs.drop (xs.length - days)

/-- The signal evaluation performed by iteration `i` of the `run_backtest`
replay loop: `none` when the loop body does not evaluate signals at `i`
(missing/empty history, `i` out of range, or `i` below the lookback guard —
the loop `continue`s); otherwise the `(should_buy, should_sell)` pair the
loop computes there.  The strategy methods re-fetch the full latest series
via `self.api.get_ohlcv(coin)`; they do not see the series truncated at
candle `i`. -/
def Backtester.runBacktestSignalAt (sq : ℚ → ℚ) (g : Gateway)
    (strategy : StrategyInst) (coin : String) (days i : ℕ) :
    Option (Bool × Bool) :=
  match g.ohlcv coin with
  | none => none
  | some df0 =>
    if df0.length = 0 then none
    else
      let df := Backtester.dfTail days df0
      if i < df.length then
        if i < Backtester.lookbackGuard strategy + 1 then none
        else some (strategy.shouldBuy sq (g.ohlcv coin),
                   strategy.shouldSell sq (g.ohlcv coin))
      else none

/-- The signal-pass audit count of one strategy row: how many execution-log
rows `_execute_strategy` appends.  It depends only on the owner lookup, the
credential check, the parameter parse and the strategy-kind dispatch — not
on the gateway, the signals or the store. -/
def TradingScheduler.executeStrategyLogDelta (users : List User)
    (sm : TradingStrategyModel) : ℕ :=
  match findUser users sm.userId with
  | none => 0
  | some user =>
    if ¬ (strTruthy user.bithumbApiKey && strTruthy user.bithumbApiSecret) then 1
    else
      match paramsOf sm.parameters with
      | none => 0
      | some bag =>
        if (TradingScheduler.buildStrategy sm.strategyType bag).isSome then 1 else 0

/-- The lookback each base strategy requires before it can signal: the spec's
`long_period + 1` / `period + 1` rows for the moving-average, RSI and
Bollinger variants, and the source guards `slow + signal` / `k + d` for MACD
and stochastic. -/
def SubStrategy.requiredLookback : SubStrategy → ℕ
  | .movingAverage _ longPeriod => longPeriod + 1
  | .rsi period _ _ => period + 1
  | .bollinger period _ => period + 1
  | .macd _ slowPeriod signalPeriod => slowPeriod + signalPeriod
  | .stochastic kPeriod dPeriod _ _ => kPeriod + dPeriod

/-! ## General lemmas about the embedding -/

theorem optLe_none_right (x : SVal) : optLe x none = false := by cases x <;> rfl

theorem optGe_none_right (x : SVal) : optGe x none = false := by cases x <;> rfl

theorem rollingMean_length (w : ℕ) (s : List SVal) :
    (rollingMean w s).length = s.length := by
  simp [rollingMean]

/-- Any position of a rolling mean whose window would extend past the start
of a too-short series is NaN; in particular `iloc[-2]` of a `w`-rolling mean
over at most `w` observations. -/
theorem iloc2_rollingMean_of_short (w : ℕ) (s : List SVal) (h : s.length ≤ w) :
    iloc2 (rollingMean w s) = none ∨ iloc2 (rollingMean w s) = some none := by
  unfold iloc2
  rw [rollingMean_length]
  by_cases h2 : 2 ≤ s.length
  · right
    rw [if_pos h2]
    have hlt : s.length - 2 < s.length := by omega
    rw [rollingMean, List.get?_map, List.get?_range hlt]
    have hw : s.length - 2 + 1 < w := by omega
    simp [hw]
  · left
    rw [if_neg h2]

theorem findBalance_some_coin {balances : List BalanceRow} {coin : String}
    {b : BalanceRow} (h : findBalance balances coin = some b) : b.coin = coin := by
  have := List.find?_some h
  simpa using this

/-- Replacing/inserting the unique balance row of a coin makes it the row
`findBalance` returns. -/
theorem findBalance_setBalance (balances : List BalanceRow) (coin : String)
    (b : BalanceRow) (h : b.coin = coin) :
    findBalance (setBalance balances coin b) coin = some b := by
  unfold setBalance
  split
  · rename_i hany
    induction balances with
    | nil => simp at hany
    | cons x xs ih =>
      by_cases hx : x.coin = coin
      · simp [findBalance, hx, h]
      · simp only [List.any_cons, Bool.or_eq_true, decide_eq_true_eq] at hany
        rcases hany with hany | hany
        · exact absurd hany hx
        · simp only [List.map_cons, if_neg hx]
          rw [findBalance, List.find?_cons_of_neg _ (by simpa using hx)]
          exact ih hany
  · rw [findBalance, List.find?_append]
    have : List.find? (fun x => decide (x.coin = coin)) balances = none := by
      rename_i hany
      rw [List.find?_eq_none]
      intro x hx
      simp only [decide_eq_true_eq]
      intro hc
      exact hany (List.any_eq_true.mpr ⟨x, hx, by simpa using hc⟩)
    simp [this, findBalance, h]

theorem createTradeRecord_logs (db : Db) (o : Order) :
    (TradingEngine.createTradeRecord db o).logs = db.logs := rfl

theorem updateBalance_logs (db : Db) (coin : String) (a p : ℚ) :
    (TradingEngine.updateBalance db coin a p).logs = db.logs := rfl

theorem createTradeRecord_strategies (db : Db) (o : Order) :
    (TradingEngine.createTradeRecord db o).strategies = db.strategies := rfl

theorem updateBalance_strategies (db : Db) (coin : String) (a p : ℚ) :
    (TradingEngine.updateBalance db coin a p).strategies = db.strategies := rfl

/-- The engine never writes execution-log rows. -/
theorem executeBuyOrder_logs (g : Gateway) (te : Bool) (dc : String) (db : Db)
    (coin : String) (a : ℚ) (price : Option ℚ) (sid : Option ℕ) :
    (TradingEngine.executeBuyOrder g te dc db coin a price sid).1.logs = db.logs := by
  unfold TradingEngine.executeBuyOrder
  cases TradingEngine.resolvePrice g coin price
  · rfl
  · cases te
    · rfl
    · simp only [Bool.false_eq_true, if_true, if_false]
      cases (if _ ≠ (0 : ℚ) then _ else _ : Option ApiResult) with
      | none => rfl
      | some r =>
        by_cases hs : r.status = "0000" <;>
          simp [hs, TradingEngine.createTradeRecord, TradingEngine.updateBalance]

/-- The engine never writes execution-log rows. -/
theorem executeSellOrder_logs (g : Gateway) (te : Bool) (dc : String) (db : Db)
    (coin : String) (a : ℚ) (price : Option ℚ) (sid : Option ℕ) :
    (TradingEngine.executeSellOrder g te dc db coin a price sid).1.logs = db.logs := by
  unfold TradingEngine.executeSellOrder
  cases TradingEngine.resolvePrice g coin price
  · rfl
  · cases te
    · rfl
    · simp only [Bool.false_eq_true, if_true, if_false]
      cases (if _ ≠ (0 : ℚ) then _ else _ : Option ApiResult) with
      | none => rfl
      | some r =>
        by_cases hs : r.status = "0000" <;>
          simp [hs, TradingEngine.createTradeRecord, TradingEngine.updateBalance]

/-- The engine never touches the strategy configurations. -/
theorem executeBuyOrder_strategies (g : Gateway) (te : Bool) (dc : String) (db : Db)
    (coin : String) (a : ℚ) (price : Option ℚ) (sid : Option ℕ) :
    (TradingEngine.executeBuyOrder g te dc db coin a price sid).1.strategies =
      db.strategies := by
  unfold TradingEngine.executeBuyOrder
  cases TradingEngine.resolvePrice g coin price
  · rfl
  · cases te
    · rfl
    · simp only [Bool.false_eq_true, if_true, if_false]
      cases (if _ ≠ (0 : ℚ) then _ else _ : Option ApiResult) with
      | none => rfl
      | some r =>
        by_cases hs : r.status = "0000" <;>
          simp [hs, TradingEngine.createTradeRecord, TradingEngine.updateBalance]

/-- The engine never touches the strategy configurations. -/
theorem executeSellOrder_strategies (g : Gateway) (te : Bool) (dc : String) (db : Db)
    (coin : String) (a : ℚ) (price : Option ℚ) (sid : Option ℕ) :
    (TradingEngine.executeSellOrder g te dc db coin a price sid).1.strategies =
      db.strategies := by
  unfold TradingEngine.executeSellOrder
  cases TradingEngine.resolvePrice g coin price
  · rfl
  · cases te
    · rfl
    · simp only [Bool.false_eq_true, if_true, if_false]
      cases (if _ ≠ (0 : ℚ) then _ else _ : Option ApiResult) with
      | none => rfl
      | some r =>
        by_cases hs : r.status = "0000" <;>
          simp [hs, TradingEngine.createTradeRecord, TradingEngine.updateBalance]

/-- Every branch of `execute_buy_order` appends exactly the returned order. -/
theorem executeBuyOrder_orders_append (g : Gateway) (te : Bool) (dc : String)
    (db : Db) (coin : String) (a : ℚ) (price : Option ℚ) (sid : Option ℕ) :
    (TradingEngine.executeBuyOrder g te dc db coin a price sid).1.orders =
      db.orders ++ [(TradingEngine.executeBuyOrder g te dc db coin a price sid).2] := by
  unfold TradingEngine.executeBuyOrder
  cases TradingEngine.resolvePrice g coin price
  · rfl
  · cases te
    · rfl
    · simp only [Bool.false_eq_true, if_true, if_false]
      cases (if _ ≠ (0 : ℚ) then _ else _ : Option ApiResult) with
      | none => rfl
      | some r =>
        by_cases hs : r.status = "0000" <;>
          simp [hs, TradingEngine.createTradeRecord, TradingEngine.updateBalance]

/-- Every branch of `execute_sell_order` appends exactly the returned order. -/
theorem executeSellOrder_orders_append (g : Gateway) (te : Bool) (dc : String)
    (db : Db) (coin : String) (a : ℚ) (price : Option ℚ) (sid : Option ℕ) :
    (TradingEngine.executeSellOrder g te dc db coin a price sid).1.orders =
      db.orders ++ [(TradingEngine.executeSellOrder g te dc db coin a price sid).2] := by
  unfold TradingEngine.executeSellOrder
  cases TradingEngine.resolvePrice g coin price
  · rfl
  · cases te
    · rfl
    · simp only [Bool.false_eq_true, if_true, if_false]
      cases (if _ ≠ (0 : ℚ) then _ else _ : Option ApiResult) with
      | none => rfl
      | some r =>
        by_cases hs : r.status = "0000" <;>
          simp [hs, TradingEngine.createTradeRecord, TradingEngine.updateBalance]

/-- With a resolved price, the persisted buy order carries the adjusted
amount and its notional. -/
theorem executeBuyOrder_amount_total {g : Gateway} (te : Bool) (dc : String)
    (db : Db) {coin : String} (a : ℚ) {p : ℚ} {price : Option ℚ} (sid : Option ℕ)
    (hp : TradingEngine.resolvePrice g coin price = some p) :
    (TradingEngine.executeBuyOrder g te dc db coin a price sid).2.amount =
      TradingEngine.adjustAmount a p ∧
    (TradingEngine.executeBuyOrder g te dc db coin a price sid).2.total =
      TradingEngine.adjustAmount a p * p := by
  unfold TradingEngine.executeBuyOrder
  rw [hp]
  cases te
  · exact ⟨rfl, rfl⟩
  · simp only [Bool.false_eq_true, if_true, if_false]
    cases (if _ ≠ (0 : ℚ) then _ else _ : Option ApiResult) with
    | none => exact ⟨rfl, rfl⟩
    | some r => by_cases hs : r.status = "0000" <;> simp [hs]

/-- With a resolved price, the persisted sell order carries the adjusted
amount and its notional. -/
theorem executeSellOrder_amount_total {g : Gateway} (te : Bool) (dc : String)
    (db : Db) {coin : String} (a : ℚ) {p : ℚ} {price : Option ℚ} (sid : Option ℕ)
    (hp : TradingEngine.resolvePrice g coin price = some p) :
    (TradingEngine.executeSellOrder g te dc db coin a price sid).2.amount =
      TradingEngine.adjustAmount a p ∧
    (TradingEngine.executeSellOrder g te dc db coin a price sid).2.total =
      TradingEngine.adjustAmount a p * p := by
  unfold TradingEngine.executeSellOrder
  rw [hp]
  cases te
  · exact ⟨rfl, rfl⟩
  · simp only [Bool.false_eq_true, if_true, if_false]
    cases (if _ ≠ (0 : ℚ) then _ else _ : Option ApiResult) with
    | none => exact ⟨rfl, rfl⟩
    | some r => by_cases hs : r.status = "0000" <;> simp [hs]

/-- With trading enabled, the persisted order of either path ends completed
or failed (never pending); without a resolvable price it is failed. -/
theorem executeOrder_status_resolution (g : Gateway) (dc : String) (db : Db)
    (coin : String) (a : ℚ) (price : Option ℚ) (sid : Option ℕ) :
    ((TradingEngine.executeBuyOrder g true dc db coin a price sid).2.status =
        OrderStatus.completed ∨
      (TradingEngine.executeBuyOrder g true dc db coin a price sid).2.status =
        OrderStatus.failed) ∧
    ((TradingEngine.executeSellOrder g true dc db coin a price sid).2.status =
        OrderStatus.completed ∨
      (TradingEngine.executeSellOrder g true dc db coin a price sid).2.status =
        OrderStatus.failed) := by
  constructor
  · unfold TradingEngine.executeBuyOrder
    cases TradingEngine.resolvePrice g coin price
    · exact Or.inr rfl
    · simp only [if_true]
      cases (if _ ≠ (0 : ℚ) then _ else _ : Option ApiResult) with
      | none => exact Or.inr rfl
      | some r => by_cases hs : r.status = "0000" <;> simp [hs]
  · unfold TradingEngine.executeSellOrder
    cases TradingEngine.resolvePrice g coin price
    · exact Or.inr rfl
    · simp only [if_true]
      cases (if _ ≠ (0 : ℚ) then _ else _ : Option ApiResult) with
      | none => exact Or.inr rfl
      | some r => by_cases hs : r.status = "0000" <;> simp [hs]

/-! ## Concrete fixtures used to evaluate the theorems on explicit inputs -/

/-- A gateway whose order submissions all fail at the transport layer. -/
def exGateway : Gateway :=
  { currentPrice := fun _ => some 100
    ohlcv := fun _ => none
    getBalance := fun _ => { total := 0, available := 0, inUse := 0, avgBuyPrice := none }
    buyLimitOrder := fun _ _ _ => none
    buyMarketOrder := fun _ _ => none
    sellLimitOrder := fun _ _ _ => none
    sellMarketOrder := fun _ _ => none }

/-- A gateway that accepts every order. -/
def exOkGateway : Gateway :=
  { currentPrice := fun _ => some 5000
    ohlcv := fun _ => none
    getBalance := fun _ => { total := 0, available := 0, inUse := 0, avgBuyPrice := none }
    buyLimitOrder := fun _ _ _ => some { status := "0000", message := none, orderId := some "B1" }
    buyMarketOrder := fun _ _ => some { status := "0000", message := none, orderId := some "B2" }
    sellLimitOrder := fun _ _ _ => some { status := "0000", message := none, orderId := some "S1" }
    sellMarketOrder := fun _ _ => some { status := "0000", message := none, orderId := some "S2" } }

/-- An empty store. -/
def exEmptyDb : Db :=
  { orders := [], trades := [], balances := [], logs := [], strategies := [] }

/-- A store holding 1 BTC bought at an average cost of 100. -/
def exHoldingDb : Db :=
  { orders := [], trades := [],
    balances := [{ coin := "BTC", total := 1, available := 1, inUse := 0,
                   avgBuyPrice := some 100 }],
    logs := [], strategies := [] }

/-! ## Claim theorems -/

/-- C3: for a buy or sell invocation with a resolved price `p > 0` and an
amount whose notional is below the 5500 KRW exchange minimum, the persisted
order's amount is scaled up to `(5500 × 1.10) / p` (never down), and its
persisted notional equals `5500 × 1.10`. -/
theorem min_order_amount_scaling (g : Gateway) (te : Bool) (dc : String) (db : Db)
    (coin : String) (a p : ℚ) (price : Option ℚ) (sid : Option ℕ)
    (hp : TradingEngine.resolvePrice g coin price = some p)
    (hpos : 0 < p) (hmin : a * p < MIN_ORDER_AMOUNT_KRW) :
    ((TradingEngine.executeBuyOrder g te dc db coin a price sid).2.amount =
        MIN_ORDER_AMOUNT_KRW * (11 / 10) / p ∧
      (TradingEngine.executeBuyOrder g te dc db coin a price sid).2.total =
        MIN_ORDER_AMOUNT_KRW * (11 / 10) ∧
      a ≤ (TradingEngine.executeBuyOrder g te dc db coin a price sid).2.amount ∧
      (TradingEngine.executeBuyOrder g te dc db coin a price sid).1.orders =
        db.orders ++ [(TradingEngine.executeBuyOrder g te dc db coin a price sid).2]) ∧
    ((TradingEngine.executeSellOrder g te dc db coin a price sid).2.amount =
        MIN_ORDER_AMOUNT_KRW * (11 / 10) / p ∧
      (TradingEngine.executeSellOrder g te dc db coin a price sid).2.total =
        MIN_ORDER_AMOUNT_KRW * (11 / 10) ∧
      a ≤ (TradingEngine.executeSellOrder g te dc db coin a price sid).2.amount ∧
      (TradingEngine.executeSellOrder g te dc db coin a price sid).1.orders =
        db.orders ++ [(TradingEngine.executeSellOrder g te dc db coin a price sid).2]) := by
  have hne : p ≠ 0 := ne_of_gt hpos
  have hadj : TradingEngine.adjustAmount a p = MIN_ORDER_AMOUNT_KRW * (11 / 10) / p := by
    unfold TradingEngine.adjustAmount
    rw [if_pos hmin]
  have htot : MIN_ORDER_AMOUNT_KRW * (11 / 10) / p * p = MIN_ORDER_AMOUNT_KRW * (11 / 10) :=
    div_mul_cancel₀ _ hne
  have hle : a ≤ MIN_ORDER_AMOUNT_KRW * (11 / 10) / p := by
    rw [le_div_iff hpos]
    have : MIN_ORDER_AMOUNT_KRW ≤ MIN_ORDER_AMOUNT_KRW * (11 / 10) := by
      norm_num [MIN_ORDER_AMOUNT_KRW]
    linarith
  obtain ⟨hba, hbt⟩ := executeBuyOrder_amount_total (g := g) te dc db a sid hp
  obtain ⟨hsa, hst⟩ := executeSellOrder_amount_total (g := g) te dc db a sid hp
  refine ⟨⟨?_, ?_, ?_, executeBuyOrder_orders_append ..⟩,
          ⟨?_, ?_, ?_, executeSellOrder_orders_append ..⟩⟩
  · rw [hba, hadj]
  · rw [hbt, hadj, htot]
  · rw [hba, hadj]; exact hle
  · rw [hsa, hadj]
  · rw [hst, hadj, htot]
  · rw [hsa, hadj]; exact hle

/-- C3 witness: minimum 5500, amount 1, price 100 — the persisted amount is
`6050/100 = 60.5` on both paths and the prior amount is not larger. -/
theorem min_order_amount_scaling_witness :
    (TradingEngine.executeBuyOrder exGateway true "KRW" exEmptyDb "BTC" 1
        (some 100) none).2.amount = MIN_ORDER_AMOUNT_KRW * (11 / 10) / 100 ∧
    (TradingEngine.executeBuyOrder exGateway true "KRW" exEmptyDb "BTC" 1
        (some 100) none).2.total = MIN_ORDER_AMOUNT_KRW * (11 / 10) ∧
    (1 : ℚ) ≤ (TradingEngine.executeBuyOrder exGateway true "KRW" exEmptyDb "BTC" 1
        (some 100) none).2.amount ∧
    (TradingEngine.executeSellOrder exGateway true "KRW" exEmptyDb "BTC" 1
        (some 100) none).2.amount = MIN_ORDER_AMOUNT_KRW * (11 / 10) / 100 := by
  have h := min_order_amount_scaling exGateway true "KRW" exEmptyDb "BTC" 1 100
    (some 100) none rfl (by norm_num) (by norm_num [MIN_ORDER_AMOUNT_KRW])
  exact ⟨h.1.1, h.1.2.1, h.1.2.2.1, h.2.1⟩

/-- C4 (amended): every buy/sell invocation persists exactly one order row —
the returned one, appended to the untouched prior rows — and, when trading
is enabled, its final status is completed or failed. -/
theorem order_persisted_exactly_once (g : Gateway) (te : Bool) (dc : String)
    (db : Db) (coin : String) (a : ℚ) (price : Option ℚ) (sid : Option ℕ) :
    (TradingEngine.executeBuyOrder g te dc db coin a price sid).1.orders =
      db.orders ++ [(TradingEngine.executeBuyOrder g te dc db coin a price sid).2] ∧
    (TradingEngine.executeSellOrder g te dc db coin a price sid).1.orders =
      db.orders ++ [(TradingEngine.executeSellOrder g te dc db coin a price sid).2] ∧
    (te = true →
      ((TradingEngine.executeBuyOrder g te dc db coin a price sid).2.status =
          OrderStatus.completed ∨
        (TradingEngine.executeBuyOrder g te dc db coin a price sid).2.status =
          OrderStatus.failed) ∧
      ((TradingEngine.executeSellOrder g te dc db coin a price sid).2.status =
          OrderStatus.completed ∨
        (TradingEngine.executeSellOrder g te dc db coin a price sid).2.status =
          OrderStatus.failed)) := by
  refine ⟨executeBuyOrder_orders_append .., executeSellOrder_orders_append .., ?_⟩
  intro h
  subst h
  exact executeOrder_status_resolution g dc db coin a price sid

/-- C4 witness: the amended statement evaluated with trading enabled on a
transport-failing gateway. -/
theorem order_persisted_exactly_once_witness :
    (TradingEngine.executeBuyOrder exGateway true "KRW" exEmptyDb "BTC" 1
        (some 10000) none).1.orders =
      exEmptyDb.orders ++ [(TradingEngine.executeBuyOrder exGateway true "KRW"
        exEmptyDb "BTC" 1 (some 10000) none).2] ∧
    ((TradingEngine.executeBuyOrder exGateway true "KRW" exEmptyDb "BTC" 1
        (some 10000) none).2.status = OrderStatus.completed ∨
      (TradingEngine.executeBuyOrder exGateway true "KRW" exEmptyDb "BTC" 1
        (some 10000) none).2.status = OrderStatus.failed) := by
  have h := order_persisted_exactly_once exGateway true "KRW" exEmptyDb "BTC" 1
    (some 10000) none
  exact ⟨h.1, (h.2.2 rfl).1⟩

/-- C4 counterexample: with trading disabled (`trading_enabled = False`, the
configuration default) the invocation persists the order with status
`pending`, and nothing ever transitions it — refuting "every such Order
transitions exactly once from pending to either completed or failed". -/
theorem trading_disabled_order_stays_pending :
    (TradingEngine.executeBuyOrder exGateway false "KRW" exEmptyDb "BTC" 1
        (some 10000) none).2.status = OrderStatus.pending ∧
    (TradingEngine.executeBuyOrder exGateway false "KRW" exEmptyDb "BTC" 1
        (some 10000) none).1.orders.length = 1 := ⟨rfl, rfl⟩

/-- C7 (amended): `_update_balance` recomputes the volume-weighted average
cost only on buys; a sell reduces the total by exactly the traded amount and
leaves the average cost untouched; the resulting total is nonnegative iff
the sold amount does not exceed the previously recorded total (the code does
not clamp). -/
theorem balance_update_avg_cost_invariant (db : Db) (coin : String)
    (amount price : ℚ) (b : BalanceRow)
    (hb : findBalance db.balances coin = some b) :
    ∃ b', findBalance (TradingEngine.updateBalance db coin amount price).balances
            coin = some b' ∧
      b'.total = b.total + amount ∧
      (amount ≤ 0 → b'.avgBuyPrice = b.avgBuyPrice) ∧
      (0 < amount → b'.avgBuyPrice =
        some (if 0 < b.total + amount then
          (b.total * b.avgBuyPrice.getD 0 + amount * price) / (b.total + amount)
        else price)) ∧
      (amount ≤ 0 → (0 ≤ b'.total ↔ -amount ≤ b.total)) := by
  have hcoin : b.coin = coin := findBalance_some_coin hb
  by_cases ha : 0 < amount
  · refine ⟨{ coin := b.coin, total := b.total + amount, available := b.total + amount, inUse := b.inUse, avgBuyPrice := some (if 0 < b.total + amount then (b.total * b.avgBuyPrice.getD 0 + amount * price) / (b.total + amount) else price) }, ?_, rfl, ?_, ?_, ?_⟩
    · simp only [TradingEngine.updateBalance, hb, Option.getD_some, if_pos ha]
      exact findBalance_setBalance _ _ _ hcoin
    · intro h; linarith
    · intro _; rfl
    · intro h; linarith
  · refine ⟨{ coin := b.coin, total := b.total + amount, available := b.total + amount, inUse := b.inUse, avgBuyPrice := b.avgBuyPrice }, ?_, rfl, ?_, ?_, ?_⟩
    · simp only [TradingEngine.updateBalance, hb, Option.getD_some, if_neg ha]
      exact findBalance_setBalance _ _ _ hcoin
    · intro _; rfl
    · intro h; exact absurd h ha
    · intro _
      show 0 ≤ b.total + amount ↔ -amount ≤ b.total
      constructor <;> intro <;> linarith

/-- C7 witness: selling half of a 1-BTC position at 50 leaves the average
cost at 100 and the total at 1/2. -/
theorem balance_update_avg_cost_invariant_witness :
    ∃ b', findBalance (TradingEngine.updateBalance exHoldingDb "BTC" (-(1/2)) 50).balances
            "BTC" = some b' ∧
      b'.total = 1 + -(1/2) ∧
      (-(1/2) : ℚ) ≤ 0 ∧
      b'.avgBuyPrice = some 100 := by
  obtain ⟨b', h1, h2, h3, _, _⟩ := balance_update_avg_cost_invariant exHoldingDb "BTC"
    (-(1/2)) 50 { coin := "BTC", total := 1, available := 1, inUse := 0, avgBuyPrice := some 100 } (by rfl)
  exact ⟨b', h1, h2, by norm_num, by rw [h3 (by norm_num)]⟩

/-- C7 counterexample: a successful engine sell of 2 BTC against a locally
recorded total of 1 drives the recorded total to −1 — refuting "the total
holding never becomes negative". -/
theorem oversell_drives_total_negative :
    (findBalance (TradingEngine.executeSellOrder exOkGateway true "KRW" exHoldingDb
        "BTC" 2 none none).1.balances "BTC").map BalanceRow.total = some (-1) ∧
    ((-1 : ℚ) < 0) := ⟨by decide, by norm_num⟩

/-- With a positive resolved price the adjusted amount stays positive. -/
theorem adjustAmount_pos (a p : ℚ) (hpos : 0 < p) : 0 < TradingEngine.adjustAmount a p := by
  unfold TradingEngine.adjustAmount
  split
  · apply div_pos _ hpos
    norm_num [MIN_ORDER_AMOUNT_KRW]
  · rename_i hge
    push_neg at hge
    by_contra hna
    push_neg at hna
    have hle : a * p ≤ 0 := mul_nonpos_iff.mpr (Or.inr ⟨hna, hpos.le⟩)
    have : (0 : ℚ) < MIN_ORDER_AMOUNT_KRW := by norm_num [MIN_ORDER_AMOUNT_KRW]
    linarith

/-- C2: a successfully completed sell appends one trade whose profit is
`(sell price − average cost before the sale) × amount sold`, and the sale
leaves the average cost unchanged, so the snapshot taken before the balance
update coincides with the average cost after it (order-independence). -/
theorem sell_trade_profit_uses_prior_avg_cost (g : Gateway) (dc : String) (db : Db)
    (coin : String) (a p c : ℚ) (price : Option ℚ) (sid : Option ℕ) (b : BalanceRow)
    (hp : TradingEngine.resolvePrice g coin price = some p) (hpos : 0 < p)
    (hb : findBalance db.balances coin = some b)
    (havg : b.avgBuyPrice = some c) (hc : c ≠ 0)
    (hdone : (TradingEngine.executeSellOrder g true dc db coin a price sid).2.status =
      OrderStatus.completed) :
    ∃ t : Trade,
      (TradingEngine.executeSellOrder g true dc db coin a price sid).1.trades =
        db.trades ++ [t] ∧
      t.amount = (TradingEngine.executeSellOrder g true dc db coin a price sid).2.amount ∧
      t.price = p ∧
      t.profit = some ((p - c) * t.amount) ∧
      (findBalance (TradingEngine.executeSellOrder g true dc db coin a price sid).1.balances
          coin).map BalanceRow.avgBuyPrice = some (some c) := by
  have hcoin : b.coin = coin := findBalance_some_coin hb
  have hne : p ≠ 0 := ne_of_gt hpos
  have hneg : ¬ (0 < -(TradingEngine.adjustAmount a p)) := by
    have := adjustAmount_pos a p hpos
    linarith
  unfold TradingEngine.executeSellOrder at hdone ⊢
  rw [hp] at hdone ⊢
  simp only [if_true, if_pos hne] at hdone ⊢
  revert hdone
  cases hr : g.sellLimitOrder coin p (TradingEngine.adjustAmount a p) with
  | none => intro hdone; simp at hdone
  | some r =>
    intro hdone
    by_cases hs : r.status = "0000"
    · simp only [if_pos hs] at hdone ⊢
      simp only [TradingEngine.createTradeRecord, TradingEngine.updateBalance]
      refine ⟨_, rfl, rfl, rfl, ?_, ?_⟩
      · simp only [hb, havg]
        simp [hc]
      · simp only [hb, Option.getD_some, if_neg hneg]
        have hrec : ({ coin := b.coin, total := b.total + -TradingEngine.adjustAmount a p, available := b.total + -TradingEngine.adjustAmount a p, inUse := b.inUse, avgBuyPrice := b.avgBuyPrice } : BalanceRow).coin = coin := hcoin
        rw [findBalance_setBalance _ _ _ hrec]
        simp [havg]
    · simp only [if_neg hs] at hdone
      simp at hdone

/-- C2 witness: selling 2 BTC at a fetched price of 5000 against an average
cost of 100 records a profit of `(5000 − 100) × 2 = 9800`. -/
theorem sell_trade_profit_uses_prior_avg_cost_witness :
    ∃ t : Trade,
      (TradingEngine.executeSellOrder exOkGateway true "KRW" exHoldingDb "BTC" 2
        none none).1.trades = exHoldingDb.trades ++ [t] ∧
      t.amount = (TradingEngine.executeSellOrder exOkGateway true "KRW" exHoldingDb
        "BTC" 2 none none).2.amount ∧
      t.price = 5000 ∧
      t.profit = some ((5000 - 100) * t.amount) ∧
      (findBalance (TradingEngine.executeSellOrder exOkGateway true "KRW" exHoldingDb
          "BTC" 2 none none).1.balances "BTC").map BalanceRow.avgBuyPrice =
        some (some 100) := by
  exact sell_trade_profit_uses_prior_avg_cost exOkGateway "KRW" exHoldingDb "BTC" 2
    5000 100 none none
    { coin := "BTC", total := 1, available := 1, inUse := 0, avgBuyPrice := some 100 }
    (by rfl) (by norm_num) (by rfl) (by rfl) (by norm_num) (by decide)

/-- C6: when the gateway rejects a submitted order (failure status) or the
call fails at the transport layer, the persisted order is `failed` with the
gateway's message preserved verbatim (or the fixed fallback text), and the
invocation appends no trade and mutates no balance. -/
theorem gateway_failure_failed_order_no_mutation (g : Gateway) (dc : String)
    (db : Db) (coin : String) (a p : ℚ) (price : Option ℚ) (sid : Option ℕ)
    (hp : TradingEngine.resolvePrice g coin price = some p) (hpne : p ≠ 0) :
    (g.buyLimitOrder coin p (TradingEngine.adjustAmount a p) = none →
      (TradingEngine.executeBuyOrder g true dc db coin a price sid).2.status =
        OrderStatus.failed ∧
      (TradingEngine.executeBuyOrder g true dc db coin a price sid).2.errorMessage =
        some "API call failed" ∧
      (TradingEngine.executeBuyOrder g true dc db coin a price sid).1.trades = db.trades ∧
      (TradingEngine.executeBuyOrder g true dc db coin a price sid).1.balances =
        db.balances) ∧
    (∀ r : ApiResult, g.buyLimitOrder coin p (TradingEngine.adjustAmount a p) = some r →
      r.status ≠ "0000" →
      (TradingEngine.executeBuyOrder g true dc db coin a price sid).2.status =
        OrderStatus.failed ∧
      (TradingEngine.executeBuyOrder g true dc db coin a price sid).2.errorMessage =
        some (r.message.getD "Unknown error") ∧
      (TradingEngine.executeBuyOrder g true dc db coin a price sid).1.trades = db.trades ∧
      (TradingEngine.executeBuyOrder g true dc db coin a price sid).1.balances =
        db.balances) ∧
    (g.sellLimitOrder coin p (TradingEngine.adjustAmount a p) = none →
      (TradingEngine.executeSellOrder g true dc db coin a price sid).2.status =
        OrderStatus.failed ∧
      (TradingEngine.executeSellOrder g true dc db coin a price sid).2.errorMessage =
        some "API call failed" ∧
      (TradingEngine.executeSellOrder g true dc db coin a price sid).1.trades = db.trades ∧
      (TradingEngine.executeSellOrder g true dc db coin a price sid).1.balances =
        db.balances) ∧
    (∀ r : ApiResult, g.sellLimitOrder coin p (TradingEngine.adjustAmount a p) = some r →
      r.status ≠ "0000" →
      (TradingEngine.executeSellOrder g true dc db coin a price sid).2.status =
        OrderStatus.failed ∧
      (TradingEngine.executeSellOrder g true dc db coin a price sid).2.errorMessage =
        some (r.message.getD "Unknown error") ∧
      (TradingEngine.executeSellOrder g true dc db coin a price sid).1.trades = db.trades ∧
      (TradingEngine.executeSellOrder g true dc db coin a price sid).1.balances =
        db.balances) := by
  unfold TradingEngine.executeBuyOrder TradingEngine.executeSellOrder
  rw [hp]
  simp only [if_true, if_pos hpne]
  refine ⟨?_, ?_, ?_, ?_⟩
  · intro hr; rw [hr]; and_intros <;> first | rfl | trivial
  · intro r hr hs; rw [hr]; simp only [if_neg hs]; and_intros <;> first | rfl | trivial
  · intro hr; rw [hr]; and_intros <;> first | rfl | trivial
  · intro r hr hs; rw [hr]; simp only [if_neg hs]; and_intros <;> first | rfl | trivial

/-- A gateway that rejects every order with an explicit error message. -/
def exRejectGateway : Gateway :=
  { currentPrice := fun _ => some 5000
    ohlcv := fun _ => none
    getBalance := fun _ => { total := 0, available := 0, inUse := 0, avgBuyPrice := none }
    buyLimitOrder := fun _ _ _ => some { status := "5600", message := some "Insufficient funds", orderId := none }
    buyMarketOrder := fun _ _ => some { status := "5600", message := some "Insufficient funds", orderId := none }
    sellLimitOrder := fun _ _ _ => some { status := "5600", message := some "Insufficient funds", orderId := none }
    sellMarketOrder := fun _ _ => some { status := "5600", message := some "Insufficient funds", orderId := none } }

/-- C6 witness: a rejected buy persists a failed order carrying the
gateway's `"Insufficient funds"` text verbatim and leaves trades and
balances untouched. -/
theorem gateway_failure_failed_order_no_mutation_witness :
    (TradingEngine.executeBuyOrder exRejectGateway true "KRW" exHoldingDb "BTC" 2
        none none).2.status = OrderStatus.failed ∧
    (TradingEngine.executeBuyOrder exRejectGateway true "KRW" exHoldingDb "BTC" 2
        none none).2.errorMessage = some "Insufficient funds" ∧
    (TradingEngine.executeBuyOrder exRejectGateway true "KRW" exHoldingDb "BTC" 2
        none none).1.trades = exHoldingDb.trades ∧
    (TradingEngine.executeBuyOrder exRejectGateway true "KRW" exHoldingDb "BTC" 2
        none none).1.balances = exHoldingDb.balances := by
  have h := (gateway_failure_failed_order_no_mutation exRejectGateway "KRW" exHoldingDb
    "BTC" 2 5000 none none (by rfl) (by norm_num)).2.1
    { status := "5600", message := some "Insufficient funds", orderId := none }
    (by rfl) (by decide)
  exact ⟨h.1, h.2.1, h.2.2.1, h.2.2.2⟩

/-- On at most `longPeriod` candles, `_get_moving_averages` either fails
outright or returns a dictionary whose previous long moving average is NaN. -/
theorem getMovingAverages_short (shortPeriod longPeriod : ℕ) (cs : List Candle)
    (hlen : cs.length ≤ longPeriod) :
    MovingAverageStrategy.getMovingAverages shortPeriod longPeriod (some cs) = none ∨
    ∃ mas, MovingAverageStrategy.getMovingAverages shortPeriod longPeriod (some cs) =
        some mas ∧ mas.prevLongMa = none := by
  unfold MovingAverageStrategy.getMovingAverages
  dsimp only
  by_cases hguard : cs.length < longPeriod
  · left; rw [if_pos hguard]
  · rw [if_neg hguard]
    have h4 := iloc2_rollingMean_of_short longPeriod
      (List.map (fun c => some c.close) cs) (by simpa using hlen)
    rcases hx1 : iloc1 (rollingMean shortPeriod (List.map (fun c => some c.close) cs))
      with _ | v1
    · left; rw [hx1]
    · rcases hx2 : iloc1 (rollingMean longPeriod (List.map (fun c => some c.close) cs))
        with _ | v2
      · left; rw [hx1, hx2]
      · rcases hx3 : iloc2 (rollingMean shortPeriod (List.map (fun c => some c.close) cs))
          with _ | v3
        · left; rw [hx1, hx2, hx3]
        · rcases h4 with h4 | h4
          · left; rw [hx1, hx2, hx3, h4]
          · right
            refine ⟨{ shortMa := v1, longMa := v2, prevShortMa := v3, prevLongMa := none }, ?_, rfl⟩
            rw [hx1, hx2, hx3, h4]

/-- Moving-average cross: fewer than `long_period + 1` candles (or no data)
yields no signal. -/
theorem ma_insufficient_signals_false (shortPeriod longPeriod : ℕ)
    (df : Option (List Candle))
    (h : ∀ cs, df = some cs → cs.length < longPeriod + 1) :
    MovingAverageStrategy.shouldBuy shortPeriod longPeriod df = false ∧
    MovingAverageStrategy.shouldSell shortPeriod longPeriod df = false := by
  cases df with
  | none => exact ⟨rfl, rfl⟩
  | some cs =>
    have hlen : cs.length ≤ longPeriod := by have := h cs rfl; omega
    rcases getMovingAverages_short shortPeriod longPeriod cs hlen with hm | ⟨mas, hm, hprev⟩
    · unfold MovingAverageStrategy.shouldBuy MovingAverageStrategy.shouldSell
      rw [hm]
      exact ⟨rfl, rfl⟩
    · unfold MovingAverageStrategy.shouldBuy MovingAverageStrategy.shouldSell
      rw [hm]
      simp [hprev, optLe_none_right, optGe_none_right]

/-- RSI: fewer than `period + 1` candles (or no data) yields no signal. -/
theorem rsi_insufficient_signals_false (period : ℕ) (oversold overbought : ℚ)
    (df : Option (List Candle))
    (h : ∀ cs, df = some cs → cs.length < period + 1) :
    RSIStrategy.shouldBuy period oversold overbought df = false ∧
    RSIStrategy.shouldSell period oversold overbought df = false := by
  cases df with
  | none => exact ⟨rfl, rfl⟩
  | some cs =>
    unfold RSIStrategy.shouldBuy RSIStrategy.shouldSell RSIStrategy.calculateRsi
    dsimp only
    rw [if_pos (h cs rfl)]
    exact ⟨rfl, rfl⟩

/-- Bollinger: fewer than `period + 1` candles (or no data) yields no
signal. -/
theorem bollinger_insufficient_signals_false (sq : ℚ → ℚ) (period : ℕ) (stdDev : ℚ)
    (df : Option (List Candle))
    (h : ∀ cs, df = some cs → cs.length < period + 1) :
    BollingerBandStrategy.shouldBuy sq period stdDev df = false ∧
    BollingerBandStrategy.shouldSell sq period stdDev df = false := by
  cases df with
  | none => exact ⟨rfl, rfl⟩
  | some cs =>
    unfold BollingerBandStrategy.shouldBuy BollingerBandStrategy.shouldSell
      BollingerBandStrategy.calculateBollingerBands
    dsimp only
    rw [if_pos (h cs rfl)]
    exact ⟨rfl, rfl⟩

/-- MACD: fewer than `slow_period + signal_period` candles (or no data)
yields no signal. -/
theorem macd_insufficient_signals_false (fastPeriod slowPeriod signalPeriod : ℕ)
    (df : Option (List Candle))
    (h : ∀ cs, df = some cs → cs.length < slowPeriod + signalPeriod) :
    MACDStrategy.shouldBuy fastPeriod slowPeriod signalPeriod df = false ∧
    MACDStrategy.shouldSell fastPeriod slowPeriod signalPeriod df = false := by
  cases df with
  | none => exact ⟨rfl, rfl⟩
  | some cs =>
    unfold MACDStrategy.shouldBuy MACDStrategy.shouldSell MACDStrategy.calculateMacd
    dsimp only
    rw [if_pos (h cs rfl)]
    exact ⟨rfl, rfl⟩

/-- Stochastic: fewer than `k_period + d_period` candles (or no data) yields
no signal. -/
theorem stochastic_insufficient_signals_false (kPeriod dPeriod : ℕ)
    (oversold overbought : ℚ) (df : Option (List Candle))
    (h : ∀ cs, df = some cs → cs.length < kPeriod + dPeriod) :
    StochasticStrategy.shouldBuy kPeriod dPeriod oversold overbought df = false ∧
    StochasticStrategy.shouldSell kPeriod dPeriod oversold overbought df = false := by
  cases df with
  | none => exact ⟨rfl, rfl⟩
  | some cs =>
    unfold StochasticStrategy.shouldBuy StochasticStrategy.shouldSell
      StochasticStrategy.calculateStochastic
    dsimp only
    rw [if_pos (h cs rfl)]
    exact ⟨rfl, rfl⟩

/-- Any base strategy returns no signal below its required lookback. -/
theorem subStrategy_insufficient_signals_false (sq : ℚ → ℚ) (s : SubStrategy)
    (df : Option (List Candle))
    (h : ∀ cs, df = some cs → cs.length < s.requiredLookback) :
    s.shouldBuy sq df = false ∧ s.shouldSell sq df = false := by
  cases s with
  | movingAverage sp lp =>
    exact ma_insufficient_signals_false sp lp df
      (by simpa [SubStrategy.requiredLookback] using h)
  | rsi p os ob =>
    exact rsi_insufficient_signals_false p os ob df
      (by simpa [SubStrategy.requiredLookback] using h)
  | bollinger p sd =>
    exact bollinger_insufficient_signals_false sq p sd df
      (by simpa [SubStrategy.requiredLookback] using h)
  | macd f sl sg =>
    exact macd_insufficient_signals_false f sl sg df
      (by simpa [SubStrategy.requiredLookback] using h)
  | stochastic k d os ob =>
    exact stochastic_insufficient_signals_false k d os ob df
      (by simpa [SubStrategy.requiredLookback] using h)

/-- C5 (amended): below the required lookback (including an absent candle
series) every base strategy variant returns false from both `shouldBuy` and
`shouldSell`, and so does a composite of base variants provided its
`min_confirmations` is at least 1 (a composite with a non-positive threshold
signals with no data — see the counterexample). -/
theorem insufficient_history_signals_false (sq : ℚ → ℚ) :
    (∀ (s : SubStrategy) (df : Option (List Candle)),
      (∀ cs, df = some cs → cs.length < s.requiredLookback) →
      s.shouldBuy sq df = false ∧ s.shouldSell sq df = false) ∧
    (∀ (subs : List SubStrategy) (mc : ℤ) (df : Option (List Candle)),
      1 ≤ mc →
      (∀ s ∈ subs, ∀ cs, df = some cs → cs.length < s.requiredLookback) →
      CompositeStrategy.shouldBuy sq subs mc df = false ∧
      CompositeStrategy.shouldSell sq subs mc df = false) := by
  refine ⟨subStrategy_insufficient_signals_false sq, ?_⟩
  intro subs mc df hmc h
  have hbuy : subs.countP (fun s => SubStrategy.shouldBuy sq s df) = 0 := by
    rw [List.countP_eq_zero]
    intro s hs
    simp [(subStrategy_insufficient_signals_false sq s df (h s hs)).1]
  have hsell : subs.countP (fun s => SubStrategy.shouldSell sq s df) = 0 := by
    rw [List.countP_eq_zero]
    intro s hs
    simp [(subStrategy_insufficient_signals_false sq s df (h s hs)).2]
  unfold CompositeStrategy.shouldBuy CompositeStrategy.shouldSell
  rw [hbuy, hsell]
  constructor <;> simp <;> omega

/-- C5 witness: the amended statement evaluated on concrete short series. -/
theorem insufficient_history_signals_false_witness :
    SubStrategy.shouldBuy (fun x => x) (.rsi 14 30 70) none = false ∧
    SubStrategy.shouldSell (fun x => x) (.movingAverage 5 20)
      (some [{ high := 1, low := 1, close := 1 }]) = false ∧
    CompositeStrategy.shouldBuy (fun x => x) [.rsi 14 30 70] 1 none = false := by
  have h := insufficient_history_signals_false (fun x => x)
  refine ⟨(h.1 _ none (by intro cs hcs; cases hcs)).1,
          (h.1 _ _ ?_).2,
          (h.2 [.rsi 14 30 70] 1 none (by norm_num) ?_).1⟩
  · intro cs hcs
    cases hcs
    simp [SubStrategy.requiredLookback]
  · intro s hs cs hcs
    cases hcs

/-- C5 counterexample: a composite strategy with `min_confirmations = 0`
(reachable through the parameter bag) signals both buy and sell with no
candle data at all, refuting "both shouldBuy and shouldSell return false for
every strategy variant on insufficient history". -/
theorem composite_zero_confirmations_signals_with_no_data :
    CompositeStrategy.shouldBuy (fun x => x) [] 0 none = true ∧
    CompositeStrategy.shouldSell (fun x => x) [] 0 none = true := ⟨rfl, rfl⟩

/-- Three strictly rising candles (average loss 0, average gain positive). -/
def exRisingCandles : List Candle :=
  [{ high := 80, low := 80, close := 80 }, { high := 90, low := 90, close := 90 },
   { high := 100, low := 100, close := 100 }]

/-- Three flat candles (average loss 0 and average gain 0). -/
def exFlatCandles : List Candle :=
  [{ high := 5, low := 5, close := 5 }, { high := 5, low := 5, close := 5 },
   { high := 5, low := 5, close := 5 }]

/-- C9 (amended): on a sufficient series whose average loss over the RSI
period is zero, the code computes RSI = 100 exactly when the average gain is
nonzero (mirroring `x/0 = ±inf` in float arithmetic): `shouldBuy` is false
for any oversold threshold ≤ 100 and the overbought comparison behaves as if
RSI were 100.  When the average gain is also zero the division is `0/0`, RSI
is NaN rather than 100, and both signals are false — in particular the
overbought comparison does not behave as if RSI were 100 (see the
counterexample). -/
theorem rsi_zero_avg_loss_behavior (period : ℕ) (oversold overbought : ℚ)
    (cs : List Candle) (hlen : period + 1 ≤ cs.length) (hper : 1 ≤ period)
    (hloss : RSIStrategy.avgLoss period (cs.map (·.close)) = some (some 0)) :
    (∀ gv : ℚ, RSIStrategy.avgGain period (cs.map (·.close)) = some (some gv) →
      gv ≠ 0 →
      RSIStrategy.calculateRsi period (some cs) = some (some 100) ∧
      (oversold ≤ 100 →
        RSIStrategy.shouldBuy period oversold overbought (some cs) = false) ∧
      RSIStrategy.shouldSell period oversold overbought (some cs) =
        decide (overbought < 100)) ∧
    (RSIStrategy.avgGain period (cs.map (·.close)) = some (some 0) →
      RSIStrategy.calculateRsi period (some cs) = some none ∧
      RSIStrategy.shouldBuy period oversold overbought (some cs) = false ∧
      RSIStrategy.shouldSell period oversold overbought (some cs) = false) := by
  have hguard : ¬ (cs.length < period + 1) := by omega
  have hper0 : ¬ (period = 0) := by omega
  constructor
  · intro gv hg hgne
    have hcalc : RSIStrategy.calculateRsi period (some cs) = some (some 100) := by
      unfold RSIStrategy.calculateRsi
      dsimp only
      rw [if_neg hguard, if_neg hper0, hg, hloss]
      simp [RSIStrategy.rsiFromAvg, hgne]
    refine ⟨hcalc, ?_, ?_⟩
    · intro hov
      unfold RSIStrategy.shouldBuy
      rw [hcalc]
      simp [optLt, not_lt.2 hov]
    · unfold RSIStrategy.shouldSell
      rw [hcalc]
      rfl
  · intro hg0
    have hcalc : RSIStrategy.calculateRsi period (some cs) = some none := by
      unfold RSIStrategy.calculateRsi
      dsimp only
      rw [if_neg hguard, if_neg hper0, hg0, hloss]
      simp [RSIStrategy.rsiFromAvg]
    refine ⟨hcalc, ?_, ?_⟩
    · unfold RSIStrategy.shouldBuy
      rw [hcalc]
      rfl
    · unfold RSIStrategy.shouldSell
      rw [hcalc]
      rfl

/-- C9 witness: rising series — RSI 100, no buy, sell behaves as RSI = 100;
flat series — RSI undefined and no signal either way. -/
theorem rsi_zero_avg_loss_behavior_witness :
    RSIStrategy.calculateRsi 2 (some exRisingCandles) = some (some 100) ∧
    RSIStrategy.shouldBuy 2 30 70 (some exRisingCandles) = false ∧
    RSIStrategy.shouldSell 2 30 70 (some exRisingCandles) = decide ((70 : ℚ) < 100) ∧
    RSIStrategy.calculateRsi 2 (some exFlatCandles) = some none ∧
    RSIStrategy.shouldSell 2 30 70 (some exFlatCandles) = false := by
  have h1 := (rsi_zero_avg_loss_behavior 2 30 70 exRisingCandles (by decide)
    (by norm_num) (by decide)).1 10 (by decide) (by norm_num)
  have h2 := (rsi_zero_avg_loss_behavior 2 30 70 exFlatCandles (by decide)
    (by norm_num) (by decide)).2 (by decide)
  exact ⟨h1.1, h1.2.1 (by norm_num), h1.2.2, h2.1, h2.2.2⟩

/-- C9 counterexample: a flat series of sufficient length has zero average
loss, yet `shouldSell` is false while the claimed "overbought comparison as
if RSI were 100" (70 < 100) is true — the zero-gain/zero-loss case yields
NaN, not 100. -/
theorem rsi_flat_series_not_treated_as_100 :
    RSIStrategy.avgLoss 2 (exFlatCandles.map (·.close)) = some (some 0) ∧
    2 + 1 ≤ exFlatCandles.length ∧
    RSIStrategy.shouldSell 2 30 70 (some exFlatCandles) = false ∧
    ((70 : ℚ) < 100) := ⟨by decide, by decide, by decide, by norm_num⟩

/-- C10: inside one `run_backtest` replay the loop evaluates the strategy
against the full re-fetched candle series, not the series truncated at the
simulated candle, so whenever the loop evaluates signals at two indexes the
results coincide — the buy/sell decision is independent of the simulated
point in time. -/
theorem backtest_signals_time_invariant (sq : ℚ → ℚ) (g : Gateway)
    (strategy : StrategyInst) (coin : String) (days i j : ℕ) (si sj : Bool × Bool)
    (hi : Backtester.runBacktestSignalAt sq g strategy coin days i = some si)
    (hj : Backtester.runBacktestSignalAt sq g strategy coin days j = some sj) :
    si = sj := by
  unfold Backtester.runBacktestSignalAt at hi hj
  cases hdf : g.ohlcv coin with
  | none => rw [hdf] at hi; simp at hi
  | some df0 =>
    rw [hdf] at hi hj
    by_cases h0 : df0.length = 0
    · simp [h0] at hi
    · simp only [if_neg h0] at hi hj
      have key : ∀ (k : ℕ) (sk : Bool × Bool),
          (if k < (Backtester.dfTail days df0).length then
            if k < Backtester.lookbackGuard strategy + 1 then none
            else some (strategy.shouldBuy sq (some df0), strategy.shouldSell sq (some df0))
          else none) = some sk →
          sk = (strategy.shouldBuy sq (some df0), strategy.shouldSell sq (some df0)) := by
        intro k sk h
        split_ifs at h
        all_goals (try cases h)
        all_goals rfl
      rw [key i si hi, key j sj hj]

/-- Five strictly falling candles (drives RSI to 0, a buy signal). -/
def exFallingCandles : List Candle :=
  [{ high := 100, low := 100, close := 100 }, { high := 90, low := 90, close := 90 },
   { high := 80, low := 80, close := 80 }, { high := 70, low := 70, close := 70 },
   { high := 60, low := 60, close := 60 }]

/-- A gateway serving the falling series as history. -/
def exBtGateway : Gateway :=
  { currentPrice := fun _ => some 5000
    ohlcv := fun _ => some exFallingCandles
    getBalance := fun _ => { total := 0, available := 0, inUse := 0, avgBuyPrice := none }
    buyLimitOrder := fun _ _ _ => some { status := "0000", message := none, orderId := some "B1" }
    buyMarketOrder := fun _ _ => some { status := "0000", message := none, orderId := some "B2" }
    sellLimitOrder := fun _ _ _ => some { status := "0000", message := none, orderId := some "S1" }
    sellMarketOrder := fun _ _ => some { status := "0000", message := none, orderId := some "S2" } }

/-- C10 witness: the RSI(2) replay over five falling candles evaluates
`(should_buy, should_sell) = (true, false)` at index 3, and the theorem
transports it to index 4. -/
theorem backtest_signals_time_invariant_witness :
    Backtester.runBacktestSignalAt (fun x => x) exBtGateway
      (.base (.rsi 2 30 70)) "BTC" 5 3 = some (true, false) ∧
    ((true, false) : Bool × Bool) = ((true, false) : Bool × Bool) := by
  constructor
  · decide
  · exact backtest_signals_time_invariant (fun x => x) exBtGateway
      (.base (.rsi 2 30 70)) "BTC" 5 3 4 (true, false) (true, false)
      (by decide) (by decide)

/-- The user owning the budget-limited strategy fixture. -/
def exUser : User := { id := 1, username := "alice", bithumbApiKey := some "k", bithumbApiSecret := some "s" }

/-- Parameter bag: RSI period 2, per-order notional 10000 KRW. -/
def exBudgetBag : ParamBag := { period := some 2, tradeAmountKrw := some 10000 }

/-- An enabled RSI strategy row with a 50000 KRW cumulative buy budget. -/
def exBudgetStrategy : TradingStrategyModel :=
  { id := 7, userId := 1, name := "rsi-btc", coin := "BTC", enabled := true,
    strategyType := "rsi", parameters := .parsed exBudgetBag,
    maxBuyAmount := some 50000, highestPrice := none }

/-- A prior completed buy of 45000 KRW notional for strategy 7. -/
def exPriorOrder : Order :=
  { id := 0, orderType := .buy, coin := "BTC", currency := "KRW", amount := 1,
    price := 45000, total := 45000, status := .completed, orderId := none,
    strategyId := some 7, errorMessage := none }

/-- Store for the budget scenario. -/
def exBudgetDb : Db :=
  { orders := [exPriorOrder], trades := [], balances := [], logs := [],
    strategies := [exBudgetStrategy] }

/-- C8: when a buy signal fires, the budget is set and positive, and the new
order's configured notional would push the completed-buy total over the
budget, the signal pass writes exactly one non-executed "budget limit" log
row, creates no order, and mutates neither trades nor balances. -/
theorem budget_exceeded_skips_buy (sq : ℚ → ℚ) (g : Gateway) (te : Bool)
    (dc : String) (users : List User) (db : Db) (sm : TradingStrategyModel)
    (user : User) (bag : ParamBag) (strategy : StrategyInst) (limit : ℚ)
    (hu : findUser users sm.userId = some user)
    (hcred : (strTruthy user.bithumbApiKey && strTruthy user.bithumbApiSecret) = true)
    (hparams : sm.parameters = ParamsField.parsed bag)
    (hstrat : TradingScheduler.buildStrategy sm.strategyType bag = some strategy)
    (hbuy : strategy.shouldBuy sq (g.ohlcv sm.coin) = true)
    (hmax : sm.maxBuyAmount = some limit) (hlim : 0 < limit)
    (hover : limit <
      TradingScheduler.totalInvested db sm.id + bag.tradeAmountKrw.getD 10000) :
    (TradingScheduler.executeStrategy sq g te dc users db sm).orders = db.orders ∧
    (TradingScheduler.executeStrategy sq g te dc users db sm).trades = db.trades ∧
    (TradingScheduler.executeStrategy sq g te dc users db sm).balances = db.balances ∧
    (TradingScheduler.executeStrategy sq g te dc users db sm).logs = db.logs ++
      [{ strategyId := sm.id, strategyName := sm.name, coin := sm.coin,
         signal := some "buy", executed := false, orderId := none,
         message := some (.budgetLimitReached (TradingScheduler.totalInvested db sm.id) limit),
         error := none }] := by
  have hbudget : (ratTruthy sm.maxBuyAmount && decide (0 < sm.maxBuyAmount.getD 0)) = true := by
    simp [hmax, ratTruthy, ne_of_gt hlim, hlim]
  have hcheck : decide (sm.maxBuyAmount.getD 0 <
      TradingScheduler.totalInvested db sm.id + bag.tradeAmountKrw.getD 10000) = true := by
    simp [hmax, hover]
  unfold TradingScheduler.executeStrategy
  rw [hu]
  dsimp only
  rw [hcred]
  simp only [Bool.not_true, Bool.false_eq_true, if_false]
  rw [hparams]
  dsimp only
  unfold TradingScheduler.executeStrategySignals
  rw [hstrat]
  dsimp only
  rw [hbuy]
  simp only [if_true]
  rw [hbudget]
  simp only [if_true]
  rw [hmax] at hcheck
  rw [hmax]
  rw [hcheck]
  simp only [if_true]
  unfold TradingScheduler.logExecution
  simp

/-- C8 witness: budget 50000, prior completed buys 45000, configured new
notional 10000 — the buy is skipped with a budget log row and no order. -/
theorem budget_exceeded_skips_buy_witness :
    (TradingScheduler.executeStrategy (fun x => x) exBtGateway true "KRW" [exUser]
      exBudgetDb exBudgetStrategy).orders = exBudgetDb.orders ∧
    (TradingScheduler.executeStrategy (fun x => x) exBtGateway true "KRW" [exUser]
      exBudgetDb exBudgetStrategy).logs = exBudgetDb.logs ++
      [{ strategyId := 7, strategyName := "rsi-btc", coin := "BTC",
         signal := some "buy", executed := false, orderId := none,
         message := some (.budgetLimitReached
           (TradingScheduler.totalInvested exBudgetDb 7) 50000),
         error := none }] := by
  have h := budget_exceeded_skips_buy (fun x => x) exBtGateway true "KRW" [exUser]
    exBudgetDb exBudgetStrategy exUser exBudgetBag (.base (.rsi 2 30 70)) 50000
    (by decide) (by decide) (by rfl) (by decide) (by decide) (by rfl)
    (by norm_num) (by decide)
  exact ⟨h.1, h.2.2.2⟩

theorem logExecution_logs_length (db : Db) (sm : TradingStrategyModel)
    (signal : Option String) (executed : Bool) (orderId : Option ℕ)
    (message : Option LogMsg) (error : Option String) :
    (TradingScheduler.logExecution db sm signal executed orderId message error).logs.length =
      db.logs.length + 1 := by
  simp [TradingScheduler.logExecution]

theorem executeBuyAndLog_logs_length (g : Gateway) (te : Bool) (dc : String)
    (db : Db) (sm : TradingStrategyModel) (amt : ℚ) :
    (TradingScheduler.executeBuyAndLog g te dc db sm amt).logs.length =
      db.logs.length + 1 := by
  unfold TradingScheduler.executeBuyAndLog
  rw [logExecution_logs_length, executeBuyOrder_logs]

/-- Once the strategy dispatch is reached, every signal branch (buy —
including the budget skip — sell, and no-signal) writes exactly one log row;
an unknown strategy kind writes none. -/
theorem executeStrategySignals_logs_length (sq : ℚ → ℚ) (g : Gateway) (te : Bool)
    (dc : String) (db : Db) (sm : TradingStrategyModel) (bag : ParamBag) :
    (TradingScheduler.executeStrategySignals sq g te dc db sm bag).logs.length =
      db.logs.length +
        (if (TradingScheduler.buildStrategy sm.strategyType bag).isSome then 1 else 0) := by
  unfold TradingScheduler.executeStrategySignals
  cases hbs : TradingScheduler.buildStrategy sm.strategyType bag with
  | none => simp
  | some strategy =>
    simp only [Option.isSome_some, if_true]
    cases hbuy : strategy.shouldBuy sq (g.ohlcv sm.coin) with
    | true =>
      simp only [hbuy, if_true]
      split_ifs <;>
        simp [logExecution_logs_length, executeBuyAndLog_logs_length]
    | false =>
      simp only [hbuy, Bool.false_eq_true, if_false]
      cases hsell : strategy.shouldSell sq (g.ohlcv sm.coin) with
      | true =>
        simp only [hsell, if_true]
        rw [logExecution_logs_length, executeSellOrder_logs]
      | false =>
        simp only [hsell, Bool.false_eq_true, if_false]
        rw [logExecution_logs_length]

/-- The per-configuration audit count of the signal pass: `_execute_strategy`
appends exactly `executeStrategyLogDelta` log rows, a number that does not
depend on the gateway, the signals, or the prior store contents. -/
theorem executeStrategy_logs_length (sq : ℚ → ℚ) (g : Gateway) (te : Bool)
    (dc : String) (users : List User) (db : Db) (sm : TradingStrategyModel) :
    (TradingScheduler.executeStrategy sq g te dc users db sm).logs.length =
      db.logs.length + TradingScheduler.executeStrategyLogDelta users sm := by
  unfold TradingScheduler.executeStrategy TradingScheduler.executeStrategyLogDelta
  cases hu : findUser users sm.userId with
  | none => simp
  | some user =>
    cases hcred : (strTruthy user.bithumbApiKey && strTruthy user.bithumbApiSecret) with
    | false =>
      simp [hcred, logExecution_logs_length]
    | true =>
      simp only [hcred, not_true, if_false, Bool.true_eq_false]
      cases hp : sm.parameters with
      | absent => simp [paramsOf, executeStrategySignals_logs_length]
      | invalid => simp [paramsOf]
      | parsed bag => simp [paramsOf, executeStrategySignals_logs_length]

theorem logExecution_strategies (db : Db) (sm : TradingStrategyModel)
    (signal : Option String) (executed : Bool) (orderId : Option ℕ)
    (message : Option LogMsg) (error : Option String) :
    (TradingScheduler.logExecution db sm signal executed orderId message error).strategies =
      db.strategies := rfl

theorem executeProfitTargetSell_strategies (g : Gateway) (te : Bool) (dc : String)
    (db : Db) (sm : TradingStrategyModel) (amount : ℚ) (reasonText : String) :
    (TradingScheduler.executeProfitTargetSell g te dc db sm amount reasonText).strategies =
      db.strategies := by
  unfold TradingScheduler.executeProfitTargetSell
  rw [logExecution_strategies, executeSellOrder_strategies]

theorem riskSellIfTriggered_strategies (g : Gateway) (te : Bool) (dc : String)
    (db : Db) (sm : TradingStrategyModel) (bd : GwBalance)
    (profitTarget stopLoss : Option ℚ) (avgPrice : ℚ) :
    (TradingScheduler.riskSellIfTriggered g te dc db sm bd profitTarget stopLoss
      avgPrice).strategies = db.strategies := by
  unfold TradingScheduler.riskSellIfTriggered
  repeat' split
  all_goals try dsimp only
  repeat' split
  all_goals first | rfl | apply executeProfitTargetSell_strategies

theorem checkOneStrategyRisk_strategies (g : Gateway) (te : Bool) (dc : String)
    (users : List User) (db : Db) (sm : TradingStrategyModel) :
    (TradingScheduler.checkOneStrategyRisk g te dc users db sm).strategies =
      db.strategies := by
  unfold TradingScheduler.checkOneStrategyRisk
  repeat' split
  all_goals try dsimp only
  repeat' split
  all_goals first | rfl | apply riskSellIfTriggered_strategies

theorem riskPass_foldl_strategies (g : Gateway) (te : Bool) (dc : String)
    (users : List User) (L : List TradingStrategyModel) :
    ∀ d : Db, (L.foldl (TradingScheduler.checkOneStrategyRisk g te dc users) d).strategies =
      d.strategies := by
  induction L with
  | nil => intro d; rfl
  | cons sm L ih =>
    intro d
    rw [List.foldl_cons, ih, checkOneStrategyRisk_strategies]

theorem checkProfitTargetsAndStopLosses_strategies (g : Gateway) (te : Bool)
    (dc : String) (users : List User) (db : Db) :
    (TradingScheduler.checkProfitTargetsAndStopLosses g te dc users db).strategies =
      db.strategies := by
  unfold TradingScheduler.checkProfitTargetsAndStopLosses
  exact riskPass_foldl_strategies g te dc users _ db

theorem signalPass_foldl_logs_length (sq : ℚ → ℚ) (g : Gateway) (te : Bool)
    (dc : String) (users : List User) (L : List TradingStrategyModel) :
    ∀ d : Db,
      (L.foldl (fun d sm => TradingScheduler.executeStrategy sq g te dc users d sm)
        d).logs.length =
      d.logs.length + (L.map (TradingScheduler.executeStrategyLogDelta users)).sum := by
  induction L with
  | nil => intro d; simp
  | cons sm L ih =>
    intro d
    rw [List.foldl_cons, ih, executeStrategy_logs_length]
    simp [Nat.add_assoc]

/-- C1 (amended): in one control-loop cycle the execution-log rows appended
are those of the risk pass (one per triggered risk exit) plus, for every
enabled strategy, its signal-pass count: exactly one row when the owner
exists with non-empty credentials and the parameters parse and the strategy
kind is known (buy — including the budget skip — sell, and no-signal
branches alike), exactly one row when the credentials are missing, and zero
rows when the owner is missing, the parameters are malformed JSON, or the
strategy kind is unknown.  The signal pass iterates all enabled strategies
regardless of the risk pass, so a risk-exited configuration is evaluated —
and logged — again. -/
theorem cycle_log_count (sq : ℚ → ℚ) (g : Gateway) (te : Bool) (dc : String)
    (users : List User) (db : Db) :
    (TradingScheduler.runStrategyChecks sq g te dc users db).logs.length =
      (TradingScheduler.checkProfitTargetsAndStopLosses g te dc users db).logs.length +
      ((db.strategies.filter (·.enabled)).map
        (TradingScheduler.executeStrategyLogDelta users)).sum := by
  unfold TradingScheduler.runStrategyChecks
  rw [signalPass_foldl_logs_length, checkProfitTargetsAndStopLosses_strategies]

/-- An enabled strategy row with an unknown kind string. -/
def exUnknownKindStrategy : TradingStrategyModel :=
  { id := 9, userId := 1, name := "mystery", coin := "BTC", enabled := true,
    strategyType := "momentum", parameters := .absent, maxBuyAmount := none,
    highestPrice := none }

/-- Store holding only the unknown-kind strategy. -/
def exUnknownKindDb : Db :=
  { orders := [], trades := [], balances := [], logs := [],
    strategies := [exUnknownKindStrategy] }

/-- C1 counterexample: a full cycle over one enabled configuration whose
strategy kind is unknown writes zero ExecutionLogEntry rows, refuting
"exactly one entry per enabled StrategyConfig evaluated that cycle
(including the unknown-strategy-kind branch)". -/
theorem unknown_kind_cycle_writes_no_log :
    (TradingScheduler.runStrategyChecks (fun x => x) exGateway true "KRW" [exUser]
      exUnknownKindDb).logs.length = 0 ∧
    (exUnknownKindDb.strategies.filter (·.enabled)).length = 1 :=
  ⟨by decide, by decide⟩

end Bithumb
